import Mathlib

/-!
Verification development for the claudex failover router.

This file gives a shallow embedding of the routing core of the repository:

* `src/claudex/models.py`    — `Provider`, `ErrorClass`, `ProviderState`, `ClaudexState`
* `src/claudex/router.py`    — `get_available_providers`, `run_with_retry`,
  the quota/transient cooldown decisions and the reset-time extraction
* `src/claudex/providers/claude.py` — `ClaudeProvider._parse` / `_classify`
* `src/aiswitch/handoff.py`  — `build_provider_prompt`, `update_handoff` and helpers

Modelling conventions:

* UTC instants are integers counting minutes since the Unix epoch; all time
  arithmetic in the source (cooldown minutes, provider reset wall-clock times)
  is at minute granularity at the instants used by the claims, and
  `datetime.now(timezone.utc)` is modelled by a single per-turn instant
  threaded through the router (`RouterEnv.now`), matching the source's
  time-injection convention for tests.
* Python `Optional[T]` becomes `Option T`; Python string truthiness
  (`if s:` means non-`None` and non-empty) is modelled explicitly.
* External effects are parameters of the router environment: each provider
  subprocess is a function from the invocation index (per provider) to the
  `ProviderResult` the adapter would return, the IANA time-zone database of
  `zoneinfo` is a partial map from zone names to their UTC offset in minutes
  (valid at the instants the claims use), and the git snapshot of
  `get_repo_snapshot` is an opaque string.
* The router records observable events (provider calls with the prompt and
  session id passed, computed backoff waits, switch confirmations) in the
  returned `RunOutcome`, so that claims about invocation counts and call
  arguments can be stated.
-/

namespace Claudex

/-- `Provider` from `models.py`: the two supported CLI providers. -/
inductive Provider where
  | claude
  | codex
deriving DecidableEq, Repr

/-- `Provider(name)` from the enum string values; unknown names raise
`ValueError` in the source, modelled as `none`. -/
def Provider.ofString? : String → Option Provider
  | "claude" => some .claude
  | "codex" => some .codex
  | _ => none

/-- `ErrorClass` from `models.py`. -/
inductive ErrorClass where
  | QUOTA_EXHAUSTED
  | TRANSIENT_RATE_LIMIT
  | AUTH_REQUIRED
  | OTHER_ERROR
deriving DecidableEq, Repr

/-- `ProviderResult` from `providers/base.py`. -/
structure ProviderResult where
  success : Bool
  text : Option String := none
  session_id : Option String := none
  error_class : Option ErrorClass := none
  error_message : Option String := none
  raw_output : Option String := none
deriving DecidableEq, Repr

/-- `ProviderState` from `models.py` (timestamps as epoch minutes). -/
structure ProviderState where
  session_id : Option String := none
  last_used : Option Int := none
  cooldown_until : Option Int := none
  cooldown_started_at : Option Int := none
  cooldown_source : Option String := none
  cooldown_reason : Option String := none
  cooldown_message_excerpt : Option String := none
  consecutive_errors : Int := 0
deriving DecidableEq, Repr

/-- `ClaudexState` from `models.py`. The `created_at`/`updated_at` bookkeeping
timestamps are set by the state store, never read or written by the router,
and are omitted. -/
structure ClaudexState where
  last_provider : Option Provider := none
  claude : ProviderState := {}
  codex : ProviderState := {}
  turn_count : Int := 0
deriving DecidableEq, Repr

/-- `ClaudexState.get_provider_state`. -/
def ClaudexState.get_provider_state (s : ClaudexState) (p : Provider) : ProviderState :=
  match p with
  | .claude => s.claude
  | .codex => s.codex

/-- `ClaudexState.set_provider_state`. -/
def ClaudexState.set_provider_state (s : ClaudexState) (p : Provider) (ps : ProviderState) :
    ClaudexState :=
  match p with
  | .claude => { s with claude := ps }
  | .codex => { s with codex := ps }

/-! ## Configuration

The source reads a merged config `dict` with `.get(key, default)` everywhere;
the typed records below carry exactly the keys the routing core reads, with
the source's defaults as field defaults. -/

/-- The `limits` config group. -/
structure Limits where
  max_diff_lines : Nat := 200
  max_diff_bytes : Nat := 8000
  max_handoff_lines : Nat := 350
deriving DecidableEq, Repr

/-- The `retry` config group (floats as rationals). -/
structure RetryConfig where
  max_retries : Nat := 3
  backoff_base : ℚ := 2
  backoff_max : ℚ := 30
  cooldown_minutes : Int := 60
  transient_cooldown_minutes : Int := 5
deriving DecidableEq, Repr

/-- The merged config record. -/
structure Config where
  provider_order : List String := ["claude", "codex"]
  retry : RetryConfig := {}
  limits : Limits := {}
deriving DecidableEq, Repr

/-! ## Python string helpers -/

/-- Boolean prefix test on lists (used to model Python `str.startswith` and
substring membership). -/
def listIsPrefix {α : Type} [DecidableEq α] : List α → List α → Bool
  | [], _ => true
  | _ :: _, [] => false
  | a :: as, b :: bs => decide (a = b) && listIsPrefix as bs

/-- Boolean substring test on lists. -/
def listIsSubstring {α : Type} [DecidableEq α] (needle : List α) : List α → Bool
  | [] => listIsPrefix needle []
  | b :: bs => listIsPrefix needle (b :: bs) || listIsSubstring needle bs

/-- Python `needle in hay` on strings. -/
def pyContains (hay needle : String) : Bool :=
  listIsSubstring needle.data hay.data

/-- Python `hay.startswith(pre)`. -/
def pyStartsWith (hay pre : String) : Bool :=
  listIsPrefix pre.data hay.data

/-- Worker for `pySplitLines`: cut at every `\n`, a trailing `\n` producing
no extra empty line. -/
def splitLinesGo : List Char → List Char → List String
  | [], acc => [⟨acc.reverse⟩]
  | c :: rest, acc =>
      if c = '\n' then
        match rest with
        | [] => [⟨acc.reverse⟩]
        | _ :: _ => ⟨acc.reverse⟩ :: splitLinesGo rest []
      else splitLinesGo rest (c :: acc)

/-- Python `str.splitlines` (the documents in this repository use `\n`
terminators only): splits on `\n`, a trailing newline not producing a final
empty piece. -/
def pySplitLines (s : String) : List String :=
  if s = "" then [] else splitLinesGo s.data []

/-- Worker for `pySplitWhitespace`. -/
def splitWsGo : List Char → List Char → List String
  | [], acc => if acc.isEmpty then [] else [⟨acc.reverse⟩]
  | c :: rest, acc =>
      if c.isWhitespace then
        if acc.isEmpty then splitWsGo rest []
        else ⟨acc.reverse⟩ :: splitWsGo rest []
      else splitWsGo rest (c :: acc)

/-- Python `str.split()` with no argument: split on whitespace runs, no empty
pieces. -/
def pySplitWhitespace (s : String) : List String :=
  splitWsGo s.data []

/-- Python `str.strip()` with no argument: drop whitespace from both ends. -/
def pyStrip (s : String) : String :=
  ⟨((s.data.dropWhile Char.isWhitespace).reverse.dropWhile Char.isWhitespace).reverse⟩

/-- Python `s or t` for strings (`s` when non-empty, else `t`). -/
def pyOrStr (s t : String) : String :=
  if s = "" then t else s

/-- Python `a or b` for `Optional[str]` values where `a` may also be an empty
string (falsy): `a` when it is a non-empty string, else `b`. -/
def pyOrOpt (a b : Option String) : Option String :=
  match a with
  | some s => if s = "" then b else some s
  | none => b

/-- Python `s[:n]` on strings (character slice). -/
def pyTake (s : String) (n : Nat) : String :=
  ⟨s.data.take n⟩

/-- Python `lst[i:]` for an integer index `i` (negative indices count from the
end, clamped at zero). -/
def pyDropFrom {α : Type} (l : List α) (i : Int) : List α :=
  if 0 ≤ i then l.drop i.toNat
  else l.drop (max ((l.length : Int) + i) 0).toNat

/-- Lower-casing a string character-wise (Python `str.lower` on the ASCII
texts used here). -/
def pyLower (s : String) : String :=
  ⟨s.data.map Char.toLower⟩

/-! ## Error classification (`providers/claude.py`) -/

/-- `_QUOTA_PATTERNS` from `providers/claude.py`. -/
def QUOTA_PATTERNS : List String :=
  ["usage limit reached", "claude.ai/settings/limits", "you\x27ve reached your",
   "monthly limit"]

/-- `_AUTH_PATTERNS` from `providers/claude.py`. -/
def AUTH_PATTERNS : List String :=
  ["not authenticated", "authentication required", "invalid api key",
   "please run: claude login", "log in to", "unauthorized"]

/-- `_RATE_LIMIT_PATTERNS` from `providers/claude.py`. -/
def RATE_LIMIT_PATTERNS : List String :=
  ["rate limit", "too many requests", "overloaded"]

/-- `ClaudeProvider._classify` from `providers/claude.py`: case-insensitive
pattern matching over the error text, quota first, then auth, then transient
rate limit, else other. The `exit_code` parameter is accepted and unused,
exactly as in the source. -/
def claude_classify (text : String) (_exit_code : Int) : ErrorClass :=
  let lower := pyLower text
  if QUOTA_PATTERNS.any (fun p => pyContains lower p) then .QUOTA_EXHAUSTED
  else if AUTH_PATTERNS.any (fun p => pyContains lower p) then .AUTH_REQUIRED
  else if RATE_LIMIT_PATTERNS.any (fun p => pyContains lower p) then .TRANSIENT_RATE_LIMIT
  else .OTHER_ERROR

/-- The well-known fields of the single JSON document emitted by
`claude --output-format json`, with the defaults `ClaudeProvider._parse`
supplies through `dict.get`: `is_error` defaults to false, `result` to the
empty string, `session_id` to null. -/
structure ClaudeJson where
  is_error : Bool := false
  result : String := ""
  session_id : Option String := none
deriving DecidableEq, Repr

/-- `ClaudeProvider._parse` from `providers/claude.py`. The `json.loads` call
on the stripped stdout is external to the routing logic and is modelled by the
`parsed` argument (`none` when stdout is empty or not valid JSON). `stdout`
is the stripped stdout text and `raw` the concatenated stdout+stderr, as in
the source. -/
def claude_parse (parsed : Option ClaudeJson) (stdout : String) (returncode : Int)
    (raw : String) : ProviderResult :=
  match parsed with
  | some j =>
      if ¬ j.is_error ∧ j.result ≠ "" then
        { success := true, text := some j.result, session_id := j.session_id,
          raw_output := some raw }
      else
        let error_msg := pyOrStr j.result raw
        { success := false, session_id := j.session_id,
          error_class := some (claude_classify error_msg returncode),
          error_message := some (pyTake error_msg 800), raw_output := some raw }
  | none =>
      if returncode = 0 ∧ stdout ≠ "" then
        { success := true, text := some stdout, raw_output := some raw }
      else
        { success := false, error_class := some (claude_classify raw returncode),
          error_message := some (if raw ≠ "" then pyTake raw 800
                                 else "Unknown error from Claude CLI"),
          raw_output := some raw }

/-! ## Router constants and helpers (`router.py`) -/

/-- `_LIMIT_TEXT_PATTERNS` from `router.py`. -/
def LIMIT_TEXT_PATTERNS : List String :=
  ["usage limit", "quota", "hit your limit", "limit reached", "billing period",
   "resets ", "claude.ai/settings/limits"]

/-- `_looks_like_limit_exhaustion` from `router.py`. -/
def looks_like_limit_exhaustion (message : Option String) : Bool :=
  match message with
  | none => false
  | some m =>
      if m = "" then false
      else
        let lower := pyLower m
        LIMIT_TEXT_PATTERNS.any (fun p => pyContains lower p)

/-- `_CooldownDecision` from `router.py`. -/
structure CooldownDecision where
  until' : Int
  source : String
  reason : String
  message_excerpt : Option String := none
deriving DecidableEq, Repr

/-- `_clear_cooldown` from `router.py`. -/
def clear_cooldown (ps : ProviderState) : ProviderState :=
  { ps with cooldown_until := none, cooldown_started_at := none,
            cooldown_source := none, cooldown_reason := none,
            cooldown_message_excerpt := none }

/-- `_apply_cooldown` from `router.py`. -/
def apply_cooldown (ps : ProviderState) (decision : CooldownDecision)
    (now_utc : Int) : ProviderState :=
  { ps with cooldown_started_at := some now_utc,
            cooldown_until := some decision.until',
            cooldown_source := some decision.source,
            cooldown_reason := some decision.reason,
            cooldown_message_excerpt := decision.message_excerpt }

/-- `_message_excerpt` from `router.py` (limit fixed at its default 240, the
only value the source uses). -/
def message_excerpt (message : Option String) : Option String :=
  match message with
  | none => none
  | some m =>
      if m = "" then none
      else
        let normalized := " ".intercalate (pySplitWhitespace m)
        if normalized.length ≤ 240 then some normalized
        else some (pyTake normalized 240 ++ "...")

/-! ## Reset-time extraction (`router.py` regular expressions)

`_RESET_TIME_12H_PATTERN` and `_RESET_TIME_24H_PATTERN` are modelled by
direct scanners with the same language and the same leftmost/greedy match
preference as `re.search` with those patterns.  Matching of literal text is
case-insensitive (`re.IGNORECASE`), while the captured time-zone name keeps
its original case, as a regex group does. -/

/-- Digit value of a character. -/
def dv (c : Char) : Nat := c.toNat - '0'.toNat

/-- `\s*`: drop leading whitespace. -/
def dropWs : List Char → List Char
  | c :: cs => if c.isWhitespace then dropWs cs else c :: cs
  | [] => []

/-- `\s+`: require at least one whitespace character, then drop the run. -/
def ws1 : List Char → Option (List Char)
  | c :: cs => if c.isWhitespace then some (dropWs cs) else none
  | [] => none

/-- Case-insensitive literal match, returning the rest of the input. -/
def litI : List Char → List Char → Option (List Char)
  | [], cs => some cs
  | p :: ps, c :: cs => if c.toLower = p.toLower then litI ps cs else none
  | _ :: _, [] => none

/-- `resets?\s+(?:at\s+)?`: the shared prefix of both reset-time patterns.
The optional `s` and the optional `at␣` are committed greedily; omitting
them can never rescue a match because the following mandatory piece
(whitespace resp. a digit) rejects exactly when the greedy take would. -/
def afterResets (cs : List Char) : Option (List Char) :=
  match litI "reset".data cs with
  | none => none
  | some cs =>
      let cs := match cs with
                | c :: rest => if c.toLower = 's' then rest else c :: rest
                | [] => []
      match ws1 cs with
      | none => none
      | some cs =>
          match litI "at".data cs with
          | some cs' =>
              match ws1 cs' with
              | some cs'' => some cs''
              | none => some cs
          | none => some cs

/-- `(?P<hour>\d{1,2})` candidates in greedy preference order (two digits
first). -/
def hour12Cands (cs : List Char) : List (Nat × List Char) :=
  match cs with
  | a :: b :: rest =>
      if a.isDigit then
        if b.isDigit then [(10 * dv a + dv b, rest), (dv a, b :: rest)]
        else [(dv a, b :: rest)]
      else []
  | [a] => if a.isDigit then [(dv a, [])] else []
  | [] => []

/-- `(?::(?P<minute>\d{2}))?` candidates in greedy preference order (group
taken first). -/
def colonMinCands (cs : List Char) : List (Option Nat × List Char) :=
  match cs with
  | ':' :: a :: b :: rest =>
      if a.isDigit ∧ b.isDigit then [(some (10 * dv a + dv b), rest), (none, cs)]
      else [(none, cs)]
  | _ => [(none, cs)]

/-- `(?P<ampm>am|pm)`, case-insensitive; returns true for `pm`. -/
def ampmParse (cs : List Char) : Option (Bool × List Char) :=
  match litI "am".data cs with
  | some rest => some (false, rest)
  | none =>
      match litI "pm".data cs with
      | some rest => some (true, rest)
      | none => none

/-- `[.,:;\-·]?`: optionally drop one separator character (committed; the
separator characters are disjoint from `(` and whitespace, so omitting a
present separator can never rescue a match). -/
def punctOpt (cs : List Char) : List Char :=
  match cs with
  | c :: rest => if c ∈ ['.', ',', ':', ';', '-', '·'] then rest else cs
  | [] => []

/-- `\((?P<tz>[^)]+)\)`: capture a non-empty parenthesized zone name. -/
def tzCapture (cs : List Char) : Option (String × List Char) :=
  match cs with
  | '(' :: rest =>
      let body := rest.takeWhile (fun c => c ≠ ')')
      match rest.drop body.length with
      | ')' :: rest' => if body.isEmpty then none else some (⟨body⟩, rest')
      | _ => none
  | _ => none

/-- One attempted match of `_RESET_TIME_12H_PATTERN` anchored at the head of
`cs`, yielding (hour, optional minute, is-pm, zone name). -/
def match12From (cs : List Char) : Option (Nat × Option Nat × Bool × String) :=
  match afterResets cs with
  | none => none
  | some cs =>
      (hour12Cands cs).findSome? fun hc =>
        (colonMinCands hc.2).findSome? fun mc =>
          match ampmParse (dropWs mc.2) with
          | none => none
          | some ap =>
              match tzCapture (dropWs (punctOpt (dropWs ap.2))) with
              | none => none
              | some tz => some (hc.1, mc.1, ap.1, tz.1)

/-- `(?:[01]?\d|2[0-3])` candidates in preference order: `[01]\d` (greedy two
digits), then a single `\d`, then `2[0-3]`. -/
def hour24Cands (cs : List Char) : List (Nat × List Char) :=
  match cs with
  | a :: b :: rest =>
      (if (a = '0' ∨ a = '1') ∧ b.isDigit then [(10 * dv a + dv b, rest)] else []) ++
      (if a.isDigit then [(dv a, b :: rest)] else []) ++
      (if a = '2' ∧ ('0' ≤ b ∧ b ≤ '3') then [(20 + dv b, rest)] else [])
  | [a] => if a.isDigit then [(dv a, [])] else []
  | [] => []

/-- `:(?P<minute>[0-5]\d)`: a colon then a two-digit minute below 60. -/
def colonMin24 (cs : List Char) : Option (Nat × List Char) :=
  match cs with
  | ':' :: a :: b :: rest =>
      if ('0' ≤ a ∧ a ≤ '5') ∧ b.isDigit then some (10 * dv a + dv b, rest) else none
  | _ => none

/-- One attempted match of `_RESET_TIME_24H_PATTERN` anchored at the head of
`cs`, yielding (hour, minute, zone name). -/
def match24From (cs : List Char) : Option (Nat × Nat × String) :=
  match afterResets cs with
  | none => none
  | some cs =>
      (hour24Cands cs).findSome? fun hc =>
        match colonMin24 hc.2 with
        | none => none
        | some mc =>
            match tzCapture (dropWs (punctOpt (dropWs mc.2))) with
            | none => none
            | some tz => some (hc.1, mc.1, tz.1)

/-- `re.search` for the 12-hour pattern: leftmost successful anchor wins. -/
def search12 : List Char → Option (Nat × Option Nat × Bool × String)
  | [] => none
  | c :: cs =>
      match match12From (c :: cs) with
      | some r => some r
      | none => search12 cs

/-- `re.search` for the 24-hour pattern. -/
def search24 : List Char → Option (Nat × Nat × String)
  | [] => none
  | c :: cs =>
      match match24From (c :: cs) with
      | some r => some r
      | none => search24 cs

/-! ## Calendar arithmetic

Conversions between (year, month, day) and days since the Unix epoch, used
to express concrete UTC instants as epoch minutes. -/

/-- Days from the civil date (proleptic Gregorian) to 1970-01-01, computed
with floor division. -/
def days_from_civil (y m d : Int) : Int :=
  let y' := if m ≤ 2 then y - 1 else y
  let m' := if m ≤ 2 then m + 9 else m - 3
  365 * y' + Int.fdiv y' 4 - Int.fdiv y' 100 + Int.fdiv y' 400 +
    Int.fdiv (153 * m' + 2) 5 + d - 1 - 719468

/-- A UTC instant in epoch minutes from a civil date and wall-clock time. -/
def utc_min (y m d hh mm : Int) : Int :=
  days_from_civil y m d * 1440 + hh * 60 + mm

/-- `_build_reset_time_utc` from `router.py`.  `ZoneInfo(tz_name)` is
modelled by the `tzdb` map from zone names to their UTC offset in minutes
(`none` for `ZoneInfoNotFoundError`); the offset is the zone's fixed offset
around the instants the claims use, so `astimezone` in both directions adds
resp. subtracts it.  `replace(hour, minute, second=0, microsecond=0)` keeps
the local civil day and replaces the time of day; instants are at minute
granularity so zeroing seconds is the identity. -/
def build_reset_time_utc (tzdb : String → Option Int) (now_utc : Int)
    (tz_name : String) (hour_24 minute : Int) : Option Int :=
  if ¬ (0 ≤ hour_24 ∧ hour_24 ≤ 23 ∧ 0 ≤ minute ∧ minute ≤ 59) then none
  else
    match tzdb tz_name with
    | none => none
    | some off =>
        let local_now := now_utc + off
        let local_reset := Int.fdiv local_now 1440 * 1440 + hour_24 * 60 + minute
        let local_reset := if local_reset ≤ local_now then local_reset + 1440 else local_reset
        some (local_reset - off)

/-- `_extract_12h_reset_time_utc` from `router.py`. -/
def extract_12h_reset_time_utc (tzdb : String → Option Int) (message : String)
    (now_utc : Int) : Option Int :=
  match search12 message.data with
  | none => none
  | some (h, m?, isPm, tzName) =>
      let minute : Nat := m?.getD 0
      if ¬ (1 ≤ h ∧ h ≤ 12) then none
      else
        let hour_24 : Nat := h % 12 + (if isPm then 12 else 0)
        build_reset_time_utc tzdb now_utc (pyStrip tzName) hour_24 minute

/-- `_extract_24h_reset_time_utc` from `router.py`. -/
def extract_24h_reset_time_utc (tzdb : String → Option Int) (message : String)
    (now_utc : Int) : Option Int :=
  match search24 message.data with
  | none => none
  | some (h, m, tzName) =>
      build_reset_time_utc tzdb now_utc (pyStrip tzName) h m

/-- `_extract_reset_time_utc` from `router.py`: empty or missing message
yields nothing; the 12-hour pattern is preferred. -/
def extract_reset_time_utc (tzdb : String → Option Int) (message : Option String)
    (now_utc : Int) : Option Int :=
  match message with
  | none => none
  | some m =>
      if m = "" then none
      else
        match extract_12h_reset_time_utc tzdb m now_utc with
        | some t => some t
        | none => extract_24h_reset_time_utc tzdb m now_utc

/-- `_quota_cooldown_decision` from `router.py`. -/
def quota_cooldown_decision (tzdb : String → Option Int)
    (error_message : Option String) (now_utc : Int) (default_minutes : Int) :
    CooldownDecision :=
  match extract_reset_time_utc tzdb error_message now_utc with
  | some reset_until =>
      if now_utc < reset_until then
        { until' := reset_until, source := "quota_reset_time",
          reason := "quota-exhausted:provider-reset-time",
          message_excerpt := message_excerpt error_message }
      else
        { until' := now_utc + default_minutes, source := "quota_default",
          reason := "quota-exhausted:default-cooldown",
          message_excerpt := message_excerpt error_message }
  | none =>
      { until' := now_utc + default_minutes, source := "quota_default",
        reason := "quota-exhausted:default-cooldown",
        message_excerpt := message_excerpt error_message }

/-- `_transient_cooldown_decision` from `router.py`. -/
def transient_cooldown_decision (now_utc : Int) (cooldown_minutes : Int)
    (error_message : Option String) : CooldownDecision :=
  { until' := now_utc + cooldown_minutes, source := "transient_retry_exhausted",
    reason := "transient-rate-limit:retries-exhausted",
    message_excerpt := message_excerpt error_message }

/-- `_quota_cooldown_until` from `router.py`. -/
def quota_cooldown_until (tzdb : String → Option Int) (error_message : Option String)
    (now_utc : Int) (default_minutes : Int) : Int :=
  (quota_cooldown_decision tzdb error_message now_utc default_minutes).until'

/-! ## Handoff builder (`aiswitch/handoff.py`) -/

/-- `build_provider_prompt` from `handoff.py`.  The `get_repo_snapshot`
result is external git output and enters as the `snapshot` argument (the
empty string outside a git checkout). -/
def build_provider_prompt (user_prompt : String) (snapshot : String)
    (is_resuming : Bool) (handoff_content : Option String) : String :=
  if ¬ is_resuming then user_prompt
  else
    let sections : List String :=
      (match handoff_content with
       | some h =>
           if h ≠ "" then ["## Context Handoff (from previous session)\n\n" ++ h] else []
       | none => []) ++
      (if snapshot ≠ "" then [snapshot] else []) ++
      ["## Current Task\n\n" ++ user_prompt]
    "\n\n---\n\n".intercalate sections

/-- The line loop of `_extract_section` from `handoff.py`: a line starting
with `## <name>` (re)enters the section and is skipped; once inside, the next
line starting with `## ` ends the body. -/
def extract_section_go (section_header : String) : List String → Bool → List String →
    List String
  | [], _, body => body.reverse
  | line :: rest, in_section, body =>
      if pyStartsWith line section_header then
        extract_section_go section_header rest true body
      else if in_section then
        if pyStartsWith line "## " then body.reverse
        else extract_section_go section_header rest true (line :: body)
      else extract_section_go section_header rest false body

/-- `_extract_section` from `handoff.py`. -/
def extract_section (text : String) (section_name : String) : String :=
  pyStrip ("\n".intercalate
    (extract_section_go ("## " ++ section_name) (pySplitLines text) false []))

/-- `_truncate` from `handoff.py`. -/
def truncate_chars (text : String) (max_chars : Nat) : String :=
  if text.length ≤ max_chars then text
  else
    pyTake text max_chars ++ "\n…[" ++ toString (text.length - max_chars) ++
      " chars truncated]"

/-- `_enforce_line_limit` from `handoff.py`; the bottom slice
`lines[-keep_bottom:]` uses Python slice semantics (`pyDropFrom` of the
negated count). -/
def enforce_line_limit (text : String) (max_lines : Nat) : String :=
  let lines := pySplitLines text
  if lines.length ≤ max_lines then text
  else
    let keep_top : Nat := max_lines / 3
    let keep_bottom : Int := (max_lines : Int) - keep_top - 3
    let dropped : Int := (lines.length : Int) - keep_top - keep_bottom
    "\n".intercalate
      (lines.take keep_top ++
       ["", "[… " ++ toString dropped ++ " lines omitted to stay within the " ++
            toString max_lines ++ "-line limit …]", ""] ++
       pyDropFrom lines (-keep_bottom))

/-- The placeholder used for a missing goal or plan section. -/
def handoff_placeholder : String :=
  "(not yet established — infer from the exchange below)"

/-- The placeholder used for a missing blockers section. -/
def blockers_placeholder : String := "(none noted yet)"

/-- The f-string body of `update_handoff` from `handoff.py`
(`datetime.now(...).strftime(...)` enters as `now_str`). -/
def handoff_doc (user_prompt assistant_text provider now_str : String)
    (previous_handoff : Option String) : String :=
  let prev := previous_handoff.getD ""
  let prev_goal := extract_section prev "Current Goal"
  let prev_plan := extract_section prev "Current Plan"
  let prev_blockers := extract_section prev "Open Questions / Blockers"
  "# AI Switch Handoff\n\n*Last updated: " ++ now_str ++ " — Provider: " ++ provider ++
    "*\n\n## Current Goal\n\n" ++ pyOrStr prev_goal handoff_placeholder ++
    "\n\n## Current Plan\n\n" ++ pyOrStr prev_plan handoff_placeholder ++
    "\n\n## What Changed This Turn\n\n**User asked:**\n" ++
    truncate_chars user_prompt 600 ++
    "\n\n**" ++ provider ++ " responded:**\n" ++ truncate_chars assistant_text 2000 ++
    "\n\n## Open Questions / Blockers\n\n" ++ pyOrStr prev_blockers blockers_placeholder ++
    "\n\n## Next Concrete Steps\n\n(Derive from the assistant response above and update this section.)\n"

/-- `update_handoff` from `handoff.py`: the assembled document, pushed through
the line limit. -/
def update_handoff (user_prompt assistant_text provider : String) (config : Config)
    (previous_handoff : Option String) (now_str : String) : String :=
  enforce_line_limit (handoff_doc user_prompt assistant_text provider now_str previous_handoff)
    config.limits.max_handoff_lines

/-! ## Provider availability (`router.py`) -/

/-- `get_available_providers` from `router.py`: configured order, unknown
names skipped, providers with an active cooldown (`cooldown_until` non-null
and strictly after `now`) excluded. -/
def get_available_providers (state : ClaudexState) (config : Config) (now : Int) :
    List Provider :=
  (config.provider_order.filterMap Provider.ofString?).filter fun p =>
    match (state.get_provider_state p).cooldown_until with
    | some u => decide (u ≤ now)
    | none => true

/-! ## The router (`router.py` `run_with_retry`)

The `run_with_retry` in `src/claudex/router.py` takes no switch-confirmation
callback, but its callers (`main.py`) and the repository's tests invoke it
with `confirm_switch` and `on_provider_start` keyword arguments: the version
of the function containing that logic is not part of the sources at hand.
The confirmation step below is therefore modelled from the spec: before
performing the first call on a non-first provider, `confirm_switch(from =
previous_provider, to = provider, last_failed_result)` is invoked; if it
returns false the last failed result is returned with `provider_used =
previous_provider` and no attempt is made; when `confirm_switch` is omitted,
switching is implicitly approved.  `on_provider_start` is a pure
observability hook with no effect on routing and is not modelled. -/

/-- The external world of one routing turn. -/
structure RouterEnv where
  /-- Result of the k-th invocation (0-indexed, per provider) of the
  provider's adapter `run`. -/
  runs : Provider → Nat → ProviderResult
  /-- The `zoneinfo` IANA database as fixed UTC offsets in minutes. -/
  tzdb : String → Option Int
  /-- `datetime.now(timezone.utc)` for this turn, in epoch minutes. -/
  now : Int
  /-- `get_repo_snapshot` output for this working directory. -/
  snapshot : String
  /-- Modelled from the spec: the optional switch-confirmation callback. -/
  confirmSwitch : Option (Provider → Provider → ProviderResult → Bool) := none

/-- One recorded adapter invocation: the provider, the prompt and session id
passed to `run`, and the result it returned. -/
structure CallRecord where
  provider : Provider
  prompt : String
  session : Option String
  result : ProviderResult
deriving DecidableEq, Repr

/-- One recorded switch-confirmation: from-provider, to-provider, the last
failed result shown, and the decision. -/
structure ConfirmRecord where
  from_provider : Provider
  to_provider : Provider
  last_failed : ProviderResult
  approved : Bool
deriving DecidableEq, Repr

/-- What the inner retry loop hands back to the provider loop. -/
inductive AttemptOutcome where
  /-- `return` out of `run_with_retry` (success, or auth/other failure). -/
  | terminal (r : ProviderResult)
  /-- `break` or loop exhaustion: move on to the next provider, carrying the
  last observed result. -/
  | moveOn (last : Option ProviderResult)
deriving DecidableEq, Repr

/-- The observable outcome of `run_with_retry`: the returned triple plus the
recorded calls, backoff waits and confirmations. -/
structure RunOutcome where
  result : Option ProviderResult
  provider_used : Option Provider
  state : ClaudexState
  calls : List CallRecord
  waits : List ℚ
  confirms : List ConfirmRecord
deriving DecidableEq, Repr

/-- The `for attempt in range(max_retries + 1)` loop of `run_with_retry` for
one provider.  `fuel` is the number of remaining iterations (entered with
`max_retries + 1`), `attempt` the current 0-indexed attempt, `k` the number
of invocations of this provider already performed this turn, and `last` the
routing loop's current last result.  Each computed backoff wait
`min(backoff_base ** attempt, backoff_max)` is recorded; `time.sleep` is
performed on it exactly when it is positive. -/
def attemptStep (run : Nat → ProviderResult) (now : Int) (tzdb : String → Option Int)
    (rcfg : RetryConfig) (provider : Provider) (prompt : String) (sess : Option String)
    (attempt k : Nat) (state : ClaudexState)
    (cont : Nat → Nat → Option ProviderResult → ClaudexState →
      AttemptOutcome × ClaudexState × List CallRecord × List ℚ) :
    AttemptOutcome × ClaudexState × List CallRecord × List ℚ :=
  let r := run k
  let call : CallRecord := ⟨provider, prompt, sess, r⟩
  if r.success then
    let ps := state.get_provider_state provider
    let ps := { ps with session_id := pyOrOpt r.session_id ps.session_id,
                        last_used := some now, consecutive_errors := 0 }
    let ps := clear_cooldown ps
    let state := state.set_provider_state provider ps
    let state := { state with last_provider := some provider,
                              turn_count := state.turn_count + 1 }
    (.terminal r, state, [call], [])
  else
    let ps := state.get_provider_state provider
    let ps := { ps with consecutive_errors := ps.consecutive_errors + 1 }
    let state := state.set_provider_state provider ps
    let effective : Option ErrorClass :=
      if r.error_class = some .OTHER_ERROR ∧
          looks_like_limit_exhaustion r.error_message then
        some .QUOTA_EXHAUSTED
      else r.error_class
    match effective with
    | some .QUOTA_EXHAUSTED =>
        let decision := quota_cooldown_decision tzdb r.error_message now
          rcfg.cooldown_minutes
        let state := state.set_provider_state provider
          (apply_cooldown (state.get_provider_state provider) decision now)
        (.moveOn (some r), state, [call], [])
    | some .TRANSIENT_RATE_LIMIT =>
        if attempt < rcfg.max_retries then
          let wait : ℚ := min (rcfg.backoff_base ^ attempt) rcfg.backoff_max
          let rec_ := cont (attempt + 1) (k + 1) (some r) state
          (rec_.1, rec_.2.1, call :: rec_.2.2.1, wait :: rec_.2.2.2)
        else
          let decision := transient_cooldown_decision now
            rcfg.transient_cooldown_minutes r.error_message
          let state := state.set_provider_state provider
            (apply_cooldown (state.get_provider_state provider) decision now)
          (.moveOn (some r), state, [call], [])
    | some .AUTH_REQUIRED => (.terminal r, state, [call], [])
    | some .OTHER_ERROR => (.terminal r, state, [call], [])
    | none =>
        let rec_ := cont (attempt + 1) (k + 1) (some r) state
        (rec_.1, rec_.2.1, call :: rec_.2.2.1, rec_.2.2.2)

/-- The recursion of the retry loop over the remaining iteration count. -/
def attemptLoop (run : Nat → ProviderResult) (now : Int) (tzdb : String → Option Int)
    (rcfg : RetryConfig) (provider : Provider) (prompt : String) (sess : Option String) :
    Nat → Nat → Nat → Option ProviderResult → ClaudexState →
    AttemptOutcome × ClaudexState × List CallRecord × List ℚ
  | 0, _, _, last, state => (.moveOn last, state, [], [])
  | fuel + 1, attempt, k, _last, state =>
      attemptStep run now tzdb rcfg provider prompt sess attempt k state
        (fun a k' l s => attemptLoop run now tzdb rcfg provider prompt sess fuel a k' l s)

/-- The per-provider part of the provider loop past the confirmation step:
run the retry loop, then either return (terminal) or hand the carried failure
to the continuation for the remaining providers. -/
def routeAttempt (env : RouterEnv) (config : Config) (p : Provider) (prompt : String)
    (sess : Option String) (lastRes : Option ProviderResult) (counts : Provider → Nat)
    (state : ClaudexState) (confirms0 : List ConfirmRecord)
    (cont : Option Provider → Option ProviderResult → (Provider → Nat) → ClaudexState →
      RunOutcome) : RunOutcome :=
  let step := attemptLoop (env.runs p) env.now env.tzdb config.retry p prompt sess
    (config.retry.max_retries + 1) 0 (counts p) lastRes state
  let counts' : Provider → Nat :=
    fun q => if q = p then counts p + step.2.2.1.length else counts q
  match step.1 with
  | .terminal r =>
      ⟨some r, some p, step.2.1, step.2.2.1, step.2.2.2, confirms0⟩
  | .moveOn last =>
      let out := cont (some p) last counts' step.2.1
      ⟨out.result, out.provider_used, out.state, step.2.2.1 ++ out.calls,
        step.2.2.2 ++ out.waits, confirms0 ++ out.confirms⟩

/-- The `for idx, provider in enumerate(available)` loop of `run_with_retry`.
`prevProv` is the previously tried provider (`none` exactly when `idx = 0`),
`lastRes` the last observed result, and `counts` the number of invocations
already performed per provider. -/
def routeStep (env : RouterEnv) (user_prompt : String) (config : Config)
    (handoff_content : Option String) (p : Provider) (prevProv : Option Provider)
    (lastRes : Option ProviderResult) (counts : Provider → Nat) (state : ClaudexState)
    (cont : Option Provider → Option ProviderResult → (Provider → Nat) → ClaudexState →
      RunOutcome) : RunOutcome :=
  let is_fallback := prevProv.isSome
  let prompt := if is_fallback then
      build_provider_prompt user_prompt env.snapshot true handoff_content
    else user_prompt
  let sess := if is_fallback then none else (state.get_provider_state p).session_id
  let confirmEv : Option ConfirmRecord :=
    match prevProv, lastRes, env.confirmSwitch with
    | some prev, some lastR, some f => some ⟨prev, p, lastR, f prev p lastR⟩
    | _, _, _ => none
  let denied : Bool := match confirmEv with
    | some ev => ! ev.approved
    | none => false
  if denied then ⟨lastRes, prevProv, state, [], [], confirmEv.toList⟩
  else routeAttempt env config p prompt sess lastRes counts state confirmEv.toList cont

/-- The recursion of the provider loop over the available list. -/
def routeLoop (env : RouterEnv) (user_prompt : String) (config : Config)
    (handoff_content : Option String) :
    List Provider → Option Provider → Option ProviderResult → (Provider → Nat) →
    ClaudexState → RunOutcome
  | [], prevProv, lastRes, _counts, state => ⟨lastRes, prevProv, state, [], [], []⟩
  | p :: rest, prevProv, lastRes, counts, state =>
      routeStep env user_prompt config handoff_content p prevProv lastRes counts state
        (fun prev' last' counts' state' =>
          routeLoop env user_prompt config handoff_content rest prev' last' counts' state')

/-- `run_with_retry` from `router.py` (confirmation step spec-modelled, see
above): compute the available providers, return `(None, None, state)` when
there are none, else walk them in order. -/
def run_with_retry (env : RouterEnv) (user_prompt : String) (state : ClaudexState)
    (config : Config) (handoff_content : Option String) : RunOutcome :=
  let available := get_available_providers state config env.now
  if available = [] then ⟨none, none, state, [], [], []⟩
  else routeLoop env user_prompt config handoff_content available none none
    (fun _ => 0) state

/-! ## Concrete scenario material -/

/-- The slice of the IANA database the concrete claims use:
`America/Los_Angeles` at its standard offset UTC−8 (in force at the
late-February instants of the scenarios). -/
def laTzdb : String → Option Int :=
  fun s => if s = "America/Los_Angeles" then some (-480) else none

/-- The provider-stated limit message of the quota-failover scenario. -/
def limitMessage : String :=
  "You\x27ve hit your limit · resets 6pm (America/Los_Angeles)"

/-- A failing `ProviderResult` carrying the scenario's limit message as a
plain `OtherError` (the shape `ClaudeProvider` produces when its own
classifier misses the limit phrasing). -/
def limitFailResult : ProviderResult :=
  { success := false, error_class := some .OTHER_ERROR,
    error_message := some limitMessage }

/-- A successful codex result with a thread id. -/
def codexOk : ProviderResult :=
  { success := true, text := some "codex fallback", session_id := some "t1" }

/-- Environment of the quota-failover scenario: claude always answers with
the limit-phrased `OtherError`, codex succeeds, the clock reads UTC
2026-02-27T23:11, the working directory is not a git checkout. -/
def envC4 : RouterEnv :=
  { runs := fun p _ =>
      match p with
      | .claude => limitFailResult
      | .codex => codexOk,
    tzdb := laTzdb, now := utc_min 2026 2 27 23 11, snapshot := "" }

/-- The previous handoff supplied in the quota-failover scenario. -/
def handoffC4 : String := "# Handoff\n\n## Current Goal\n\nFix auth bug.\n"

/-- State of the quota-failover scenario: fresh, except that codex has a
stored session id (so that passing a null session to codex on fallback is
observable). -/
def stateC4 : ClaudexState :=
  { codex := { session_id := some "old_codex_thread" } }

/-- The outcome of the quota-failover scenario. -/
def outC4 : RunOutcome :=
  run_with_retry envC4 "continue" stateC4 {} (some handoffC4)

/-! ## Unfolding lemmas for the router loops -/

lemma attemptLoop_zero (run : Nat → ProviderResult) (now : Int) (tzdb : String → Option Int)
    (rcfg : RetryConfig) (p : Provider) (prompt : String) (sess : Option String)
    (attempt k : Nat) (last : Option ProviderResult) (state : ClaudexState) :
    attemptLoop run now tzdb rcfg p prompt sess 0 attempt k last state =
      (.moveOn last, state, [], []) := rfl

lemma attemptLoop_succ (run : Nat → ProviderResult) (now : Int) (tzdb : String → Option Int)
    (rcfg : RetryConfig) (p : Provider) (prompt : String) (sess : Option String)
    (fuel attempt k : Nat) (last : Option ProviderResult) (state : ClaudexState) :
    attemptLoop run now tzdb rcfg p prompt sess (fuel + 1) attempt k last state =
      attemptStep run now tzdb rcfg p prompt sess attempt k state
        (fun a k' l s => attemptLoop run now tzdb rcfg p prompt sess fuel a k' l s) := rfl

lemma routeLoop_nil (env : RouterEnv) (user_prompt : String) (config : Config)
    (handoff_content : Option String) (prevProv : Option Provider)
    (lastRes : Option ProviderResult) (counts : Provider → Nat) (state : ClaudexState) :
    routeLoop env user_prompt config handoff_content [] prevProv lastRes counts state =
      ⟨lastRes, prevProv, state, [], [], []⟩ := rfl

lemma routeLoop_cons (env : RouterEnv) (user_prompt : String) (config : Config)
    (handoff_content : Option String) (p : Provider) (rest : List Provider)
    (prevProv : Option Provider) (lastRes : Option ProviderResult)
    (counts : Provider → Nat) (state : ClaudexState) :
    routeLoop env user_prompt config handoff_content (p :: rest) prevProv lastRes counts
        state =
      routeStep env user_prompt config handoff_content p prevProv lastRes counts state
        (fun prev' last' counts' state' =>
          routeLoop env user_prompt config handoff_content rest prev' last' counts'
            state') := rfl

/-! ## Basic lemmas about the state accessors -/

@[simp]
lemma get_provider_state_set_same (s : ClaudexState) (p : Provider) (ps : ProviderState) :
    (s.set_provider_state p ps).get_provider_state p = ps := by
  cases p <;> rfl

lemma get_provider_state_set_ne (s : ClaudexState) {p q : Provider} (ps : ProviderState)
    (h : q ≠ p) :
    (s.set_provider_state p ps).get_provider_state q = s.get_provider_state q := by
  cases p <;> cases q <;> first | rfl | exact absurd rfl h

@[simp]
lemma turn_count_set_provider_state (s : ClaudexState) (p : Provider) (ps : ProviderState) :
    (s.set_provider_state p ps).turn_count = s.turn_count := by
  cases p <;> rfl

@[simp]
lemma last_provider_set_provider_state (s : ClaudexState) (p : Provider) (ps : ProviderState) :
    (s.set_provider_state p ps).last_provider = s.last_provider := by
  cases p <;> rfl

lemma session_id_clear_cooldown (ps : ProviderState) :
    (clear_cooldown ps).session_id = ps.session_id := rfl

lemma session_id_apply_cooldown (ps : ProviderState) (d : CooldownDecision) (now : Int) :
    (apply_cooldown ps d now).session_id = ps.session_id := rfl

/-! ## Substring lemmas -/

lemma listIsPrefix_append {α : Type} [DecidableEq α] (x b : List α) :
    listIsPrefix x (x ++ b) = true := by
  induction x with
  | nil => rfl
  | cons a as ih => simp [listIsPrefix, ih]

lemma listIsSubstring_of_prefix {α : Type} [DecidableEq α] {n h : List α}
    (hp : listIsPrefix n h = true) : listIsSubstring n h = true := by
  cases h with
  | nil => simpa [listIsSubstring] using hp
  | cons b bs => simp [listIsSubstring, hp]

lemma listIsSubstring_append_left {α : Type} [DecidableEq α] {n h : List α}
    (a : List α) (hs : listIsSubstring n h = true) :
    listIsSubstring n (a ++ h) = true := by
  induction a with
  | nil => simpa using hs
  | cons c cs ih =>
      simp only [List.cons_append, listIsSubstring, Bool.or_eq_true]
      exact Or.inr ih

lemma string_data_append (a b : String) : (a ++ b).data = a.data ++ b.data := rfl

/-- Containment of the middle piece of a three-part concatenation. -/
lemma pyContains_middle (a x b : String) : pyContains (a ++ x ++ b) x = true := by
  have h1 : listIsSubstring x.data (x.data ++ b.data) = true :=
    listIsSubstring_of_prefix (listIsPrefix_append x.data b.data)
  have h2 := listIsSubstring_append_left a.data h1
  simpa [pyContains, string_data_append, List.append_assoc] using h2

/-! ## Claim theorems -/

/-- C2: for every state `S`, config `C` and instant `t`,
`get_available_providers S C t` is a subsequence of the configured
`provider_order` (read as providers, in the same relative order), and it
contains exactly those providers of the configured order whose
`cooldown_until` is null or at most `t`. -/
theorem C2_available_providers (S : ClaudexState) (C : Config) (t : Int) :
    List.Sublist (get_available_providers S C t)
      (C.provider_order.filterMap Provider.ofString?) ∧
    ∀ p : Provider, p ∈ get_available_providers S C t ↔
      (p ∈ C.provider_order.filterMap Provider.ofString? ∧
        ((S.get_provider_state p).cooldown_until = none ∨
          ∃ u : Int, (S.get_provider_state p).cooldown_until = some u ∧ u ≤ t)) := by
  constructor
  · exact List.filter_sublist _
  · intro p
    rw [get_available_providers, List.mem_filter]
    constructor
    · rintro ⟨hmem, hpred⟩
      refine ⟨hmem, ?_⟩
      rcases hcd : (S.get_provider_state p).cooldown_until with _ | u
      · exact Or.inl rfl
      · rw [hcd] at hpred
        exact Or.inr ⟨u, rfl, by simpa using hpred⟩
    · rintro ⟨hmem, hcase⟩
      refine ⟨hmem, ?_⟩
      rcases hcase with hnone | ⟨u, hsome, hle⟩
      · simp [hnone]
      · simp [hsome, hle]

/-- C4: in the quota-failover scenario (first provider fails with the
limit-phrased `OtherError` at UTC 2026-02-27T23:11, second provider
succeeds), the router returns the second provider's success; the first
provider's cooldown ends at 2026-02-28T02:00Z with source
`quota_reset_time`; both providers are invoked once, in order; and the one
call to the second provider carries a prompt containing the supplied handoff
content and a null session id. -/
theorem C4_quota_failover_scenario :
    outC4.result = some codexOk ∧
    outC4.provider_used = some Provider.codex ∧
    outC4.state.claude.cooldown_until = some (utc_min 2026 2 28 2 0) ∧
    outC4.state.claude.cooldown_source = some "quota_reset_time" ∧
    outC4.calls.map (fun c => c.provider) = [Provider.claude, Provider.codex] ∧
    (outC4.calls.filter (fun c => c.provider = Provider.codex)).all
      (fun c => pyContains c.prompt "Fix auth bug." ∧ c.session = none) = true := by
  decide

/-- The exact standard output of the failing input for C7: a Claude JSON
document with `is_error` false and an empty `result` field. -/
def claudeEmptyJson : String :=
  "\x7b\"type\": \"result\", \"result\": \"\", \"session_id\": \"sess_empty\", \"is_error\": false\x7d"

/-- C7: the claim (and the repository's own spec and
`test_parse_empty_result_is_still_success`) require a Claude JSON document
with `is_error` false and an empty `result` to parse as a *success* with
empty text.  The code's `_parse` guards the success branch with
`if not is_error and text:`, so the empty string falls through to the error
branch: the parse of the failing input returns a failed `ProviderResult`
classified `OTHER_ERROR`. -/
theorem C7_empty_success_parse_bug :
    claude_parse
      (some { is_error := false, result := "", session_id := some "sess_empty" })
      claudeEmptyJson 0 claudeEmptyJson =
    { success := false, session_id := some "sess_empty",
      error_class := some .OTHER_ERROR,
      error_message := some claudeEmptyJson, raw_output := some claudeEmptyJson } := by
  decide

/-- C6: when the first attempted provider's first call fails as
`AuthRequired`, or as `OtherError` whose message does not trigger the quota
reclassification, `run_with_retry` returns that failed result immediately
with that provider as `provider_used`: exactly one adapter invocation
happens (no retry, no other provider), and the only state change is that
provider's `consecutive_errors` — in particular no cooldown field changes on
any provider. -/
theorem C6_auth_other_immediate (env : RouterEnv) (up : String) (state : ClaudexState)
    (cfg : Config) (handoff : Option String) (p : Provider) (rest : List Provider)
    (r : ProviderResult)
    (h_avail : get_available_providers state cfg env.now = p :: rest)
    (h_run : env.runs p 0 = r)
    (h_fail : r.success = false)
    (h_cls : r.error_class = some .AUTH_REQUIRED ∨
      (r.error_class = some .OTHER_ERROR ∧
        looks_like_limit_exhaustion r.error_message = false)) :
    run_with_retry env up state cfg handoff =
      { result := some r, provider_used := some p,
        state := state.set_provider_state p
          { state.get_provider_state p with
            consecutive_errors := (state.get_provider_state p).consecutive_errors + 1 },
        calls := [⟨p, up, (state.get_provider_state p).session_id, r⟩],
        waits := [], confirms := [] } ∧
    ∀ q : Provider,
      ((run_with_retry env up state cfg handoff).state.get_provider_state q).cooldown_until =
          (state.get_provider_state q).cooldown_until ∧
      ((run_with_retry env up state cfg handoff).state.get_provider_state q).cooldown_source =
          (state.get_provider_state q).cooldown_source := by
  have key : run_with_retry env up state cfg handoff =
      { result := some r, provider_used := some p,
        state := state.set_provider_state p
          { state.get_provider_state p with
            consecutive_errors := (state.get_provider_state p).consecutive_errors + 1 },
        calls := [⟨p, up, (state.get_provider_state p).session_id, r⟩],
        waits := [], confirms := [] } := by
    rcases h_cls with hA | ⟨hO, hL⟩
    · simp [run_with_retry, h_avail, routeLoop_cons, routeStep, routeAttempt, attemptLoop_succ,
        attemptStep, h_run, h_fail, hA]
    · simp [run_with_retry, h_avail, routeLoop_cons, routeStep, routeAttempt, attemptLoop_succ,
        attemptStep, h_run, h_fail, hO, hL]
  refine ⟨key, ?_⟩
  intro q
  rw [key]
  by_cases hq : q = p
  · subst hq
    simp
  · rw [get_provider_state_set_ne _ _ hq]
    exact ⟨rfl, rfl⟩

lemma attemptStep_head_call (run : Nat → ProviderResult) (now : Int)
    (tzdb : String → Option Int) (rcfg : RetryConfig) (p : Provider) (prompt : String)
    (sess : Option String) (attempt k : Nat) (state : ClaudexState)
    (cont : Nat → Nat → Option ProviderResult → ClaudexState →
      AttemptOutcome × ClaudexState × List CallRecord × List ℚ) :
    (attemptStep run now tzdb rcfg p prompt sess attempt k state cont).2.2.1.head? =
      some (CallRecord.mk p prompt sess (run k)) := by
  simp only [attemptStep]
  by_cases hs : (run k).success
  · simp [hs]
  · rcases hc : (run k).error_class with _ | cls
    · simp [hs, hc]
    · cases cls
      · simp [hs, hc]
      · by_cases ha : attempt < rcfg.max_retries <;> simp [hs, hc, ha]
      · simp [hs, hc]
      · by_cases hl : looks_like_limit_exhaustion (run k).error_message <;>
          simp [hs, hc, hl]

lemma attemptLoop_calls_cons (run : Nat → ProviderResult) (now : Int)
    (tzdb : String → Option Int) (rcfg : RetryConfig) (p : Provider) (prompt : String)
    (sess : Option String) (fuel attempt k : Nat) (last : Option ProviderResult)
    (state : ClaudexState) :
    ∃ tail,
      (attemptLoop run now tzdb rcfg p prompt sess (fuel + 1) attempt k last state).2.2.1 =
        CallRecord.mk p prompt sess (run k) :: tail := by
  rw [attemptLoop_succ]
  have h := attemptStep_head_call run now tzdb rcfg p prompt sess attempt k state
    (fun a k' l s => attemptLoop run now tzdb rcfg p prompt sess fuel a k' l s)
  rcases hne : (attemptStep run now tzdb rcfg p prompt sess attempt k state
      (fun a k' l s => attemptLoop run now tzdb rcfg p prompt sess fuel a k' l s)).2.2.1
    with _ | ⟨a, t⟩
  · rw [hne] at h
    simp at h
  · rw [hne] at h
    simp at h
    subst h
    exact ⟨t, rfl⟩

/-- C3: spec-modelled switch confirmation.  With two available providers
`pA, pB` and `pA` failing its first call with `QuotaExhausted`:
(a) a supplied `confirm_switch` returning false makes `run_with_retry` return
the last failed result with `provider_used = pA`, no call ever reaching `pB`,
after the callback was invoked once with (previous provider, new provider,
last failed result);
(b) a supplied `confirm_switch` returning true is invoked once with the same
arguments, and the first call to `pB` then happens, carrying the
handoff-augmented fallback prompt and a null session id;
(c) omitting `confirm_switch` behaves exactly as an always-approving
callback on everything but the confirmation log. -/
theorem C3_confirm_switch (env : RouterEnv) (up : String) (state : ClaudexState)
    (cfg : Config) (handoff : Option String) (pA pB : Provider) (r₀ : ProviderResult)
    (h_avail : get_available_providers state cfg env.now = [pA, pB])
    (h_ne : pA ≠ pB)
    (h_run : env.runs pA 0 = r₀)
    (h_fail : r₀.success = false)
    (h_quota : r₀.error_class = some .QUOTA_EXHAUSTED) :
    (∀ f, env.confirmSwitch = some f → f pA pB r₀ = false →
      (run_with_retry env up state cfg handoff).result = some r₀ ∧
      (run_with_retry env up state cfg handoff).provider_used = some pA ∧
      (run_with_retry env up state cfg handoff).calls.map (fun c => c.provider) = [pA] ∧
      (run_with_retry env up state cfg handoff).confirms = [⟨pA, pB, r₀, false⟩]) ∧
    (∀ f, env.confirmSwitch = some f → f pA pB r₀ = true →
      (run_with_retry env up state cfg handoff).confirms = [⟨pA, pB, r₀, true⟩] ∧
      ∃ tail, (run_with_retry env up state cfg handoff).calls =
        CallRecord.mk pA up (state.get_provider_state pA).session_id r₀ ::
        CallRecord.mk pB (build_provider_prompt up env.snapshot true handoff) none
          (env.runs pB 0) :: tail) ∧
    (env.confirmSwitch = none →
      (run_with_retry env up state cfg handoff).result =
        (run_with_retry { env with confirmSwitch := some fun _ _ _ => true }
          up state cfg handoff).result ∧
      (run_with_retry env up state cfg handoff).provider_used =
        (run_with_retry { env with confirmSwitch := some fun _ _ _ => true }
          up state cfg handoff).provider_used ∧
      (run_with_retry env up state cfg handoff).state =
        (run_with_retry { env with confirmSwitch := some fun _ _ _ => true }
          up state cfg handoff).state ∧
      (run_with_retry env up state cfg handoff).calls =
        (run_with_retry { env with confirmSwitch := some fun _ _ _ => true }
          up state cfg handoff).calls ∧
      (run_with_retry env up state cfg handoff).waits =
        (run_with_retry { env with confirmSwitch := some fun _ _ _ => true }
          up state cfg handoff).waits) := by
  have h_ne' : ¬ (pB = pA) := fun h => h_ne h.symm
  obtain ⟨oA, stA, csA, wsA, hclaude⟩ :
      ∃ o st cs ws, attemptLoop (env.runs pA) env.now env.tzdb cfg.retry pA up
        (state.get_provider_state pA).session_id (cfg.retry.max_retries + 1) 0 0 none
        state = (o, st, cs, ws) := ⟨_, _, _, _, rfl⟩
  have hA := hclaude
  simp [attemptLoop_succ, attemptStep, h_run, h_fail, h_quota] at hA
  obtain ⟨hoA, hstA, hcsA, hwsA⟩ := hA
  subst hoA
  subst hcsA
  subst hwsA
  obtain ⟨oB, stB, csB, wsB, hcodex⟩ :
      ∃ o st cs ws, attemptLoop (env.runs pB) env.now env.tzdb cfg.retry pB
        (build_provider_prompt up env.snapshot true handoff) none
        (cfg.retry.max_retries + 1) 0 0 (some r₀) stA = (o, st, cs, ws) :=
    ⟨_, _, _, _, rfl⟩
  obtain ⟨tailB, htailB⟩ : ∃ tail, csB =
      CallRecord.mk pB (build_provider_prompt up env.snapshot true handoff) none
        (env.runs pB 0) :: tail := by
    obtain ⟨t, ht⟩ := attemptLoop_calls_cons (env.runs pB) env.now env.tzdb cfg.retry
      pB (build_provider_prompt up env.snapshot true handoff) none
      cfg.retry.max_retries 0 0 (some r₀) stA
    rw [hcodex] at ht
    exact ⟨t, ht⟩
  cases oB with
  | terminal r' =>
      refine ⟨?_, ?_, ?_⟩
      · intro f h_cs h_f
        simp [run_with_retry, h_avail, routeLoop_cons, routeLoop_nil, routeStep, routeAttempt,
          attemptLoop_succ, attemptStep, h_run, h_fail, h_quota, h_cs, h_f]
      · intro f h_cs h_f
        constructor
        · simp [run_with_retry, h_avail, routeLoop_cons, routeLoop_nil, routeStep, routeAttempt,
            hclaude, hcodex, h_cs, h_f, h_ne']
        · refine ⟨tailB, ?_⟩
          simp [run_with_retry, h_avail, routeLoop_cons, routeLoop_nil, routeStep, routeAttempt,
            hclaude, hcodex, h_cs, h_f, h_ne', htailB]
      · intro h_none
        simp [run_with_retry, h_avail, routeLoop_cons, routeLoop_nil, routeStep, routeAttempt,
          hclaude, hcodex, h_none, h_ne']
  | moveOn last' =>
      refine ⟨?_, ?_, ?_⟩
      · intro f h_cs h_f
        simp [run_with_retry, h_avail, routeLoop_cons, routeLoop_nil, routeStep, routeAttempt,
          attemptLoop_succ, attemptStep, h_run, h_fail, h_quota, h_cs, h_f]
      · intro f h_cs h_f
        constructor
        · simp [run_with_retry, h_avail, routeLoop_cons, routeLoop_nil, routeStep, routeAttempt,
            hclaude, hcodex, h_cs, h_f, h_ne']
        · refine ⟨tailB, ?_⟩
          simp [run_with_retry, h_avail, routeLoop_cons, routeLoop_nil, routeStep, routeAttempt,
            hclaude, hcodex, h_cs, h_f, h_ne', htailB]
      · intro h_none
        simp [run_with_retry, h_avail, routeLoop_cons, routeLoop_nil, routeStep, routeAttempt,
          hclaude, hcodex, h_none, h_ne']

/-! ## Success-path postconditions

The routing loop returns a successful result only out of the success branch
of the retry loop; the lemmas below extract what that branch guarantees
about the returned state, relative to the state the turn started from. -/

/-- Every result a failure path carries is a failed result. -/
def optFail (l : Option ProviderResult) : Prop :=
  ∀ r₀, l = some r₀ → r₀.success = false

/-- What a successful turn guarantees about the returned state, relative to
the state the routing started from. -/
def SuccessSpec (state : ClaudexState) (out : RunOutcome) : Prop :=
  ∀ r p, out.result = some r → out.provider_used = some p → r.success = true →
    out.state.turn_count = state.turn_count + 1 ∧
    out.state.last_provider = some p ∧
    (out.state.get_provider_state p).cooldown_until = none ∧
    (out.state.get_provider_state p).cooldown_started_at = none ∧
    (out.state.get_provider_state p).cooldown_source = none ∧
    (out.state.get_provider_state p).cooldown_reason = none ∧
    (out.state.get_provider_state p).cooldown_message_excerpt = none ∧
    (out.state.get_provider_state p).session_id =
      pyOrOpt r.session_id ((state.get_provider_state p).session_id) ∧
    (out.state.get_provider_state p).consecutive_errors = 0

@[simp]
lemma get_provider_state_meta_update (s : ClaudexState) (lp : Option Provider) (tc : Int)
    (q : Provider) :
    ClaudexState.get_provider_state
      { last_provider := lp, claude := s.claude, codex := s.codex, turn_count := tc } q =
      s.get_provider_state q := by
  cases q <;> rfl

lemma attemptLoop_terminal_success_spec (run : Nat → ProviderResult) (now : Int)
    (tzdb : String → Option Int) (rcfg : RetryConfig) (p : Provider) (prompt : String)
    (sess : Option String) :
    ∀ (fuel attempt k : Nat) (last : Option ProviderResult) (state : ClaudexState)
      (r : ProviderResult) (st' : ClaudexState) (cs : List CallRecord) (ws : List ℚ),
      attemptLoop run now tzdb rcfg p prompt sess fuel attempt k last state =
        (.terminal r, st', cs, ws) →
      r.success = true →
      st'.turn_count = state.turn_count + 1 ∧
      st'.last_provider = some p ∧
      (st'.get_provider_state p).cooldown_until = none ∧
      (st'.get_provider_state p).cooldown_started_at = none ∧
      (st'.get_provider_state p).cooldown_source = none ∧
      (st'.get_provider_state p).cooldown_reason = none ∧
      (st'.get_provider_state p).cooldown_message_excerpt = none ∧
      (st'.get_provider_state p).session_id =
        pyOrOpt r.session_id ((state.get_provider_state p).session_id) ∧
      (st'.get_provider_state p).consecutive_errors = 0 := by
  intro fuel
  induction fuel with
  | zero =>
      intro attempt k last state r st' cs ws h hsucc
      rw [attemptLoop_zero] at h
      simp at h
  | succ fuel ih =>
      intro attempt k last state r st' cs ws h hsucc
      rw [attemptLoop_succ] at h
      obtain ⟨o1, s1, c1, w1, hrec⟩ :
          ∃ o s c w, attemptLoop run now tzdb rcfg p prompt sess fuel (attempt + 1)
            (k + 1) (some (run k))
            (state.set_provider_state p
              { state.get_provider_state p with
                consecutive_errors :=
                  (state.get_provider_state p).consecutive_errors + 1 }) =
            (o, s, c, w) := ⟨_, _, _, _, rfl⟩
      by_cases hs : (run k).success
      · simp only [attemptStep, hs, if_true] at h
        obtain ⟨ho, hst, hcs, hws⟩ := by simpa [Prod.mk.injEq] using h
        subst hst
        subst ho
        refine ⟨by simp, by simp, ?_⟩
        simp [clear_cooldown]
      · rcases hc : (run k).error_class with _ | cls
        · simp [attemptStep, hs, hc, hrec] at h
          obtain ⟨ho, hst, hcs, hws⟩ := h
          subst ho
          subst hst
          have hr := ih (attempt + 1) (k + 1) (some (run k)) _ r _ _ _ hrec hsucc
          refine ⟨by simpa using hr.1, hr.2.1, hr.2.2.1, hr.2.2.2.1, hr.2.2.2.2.1,
            hr.2.2.2.2.2.1, hr.2.2.2.2.2.2.1, ?_, hr.2.2.2.2.2.2.2.2⟩
          simpa using hr.2.2.2.2.2.2.2.1
        · cases cls
          · simp [attemptStep, hs, hc] at h
          · by_cases ha : attempt < rcfg.max_retries
            · simp [attemptStep, hs, hc, ha, hrec] at h
              obtain ⟨ho, hst, hcs, hws⟩ := h
              subst ho
              subst hst
              have hr := ih (attempt + 1) (k + 1) (some (run k)) _ r _ _ _ hrec hsucc
              refine ⟨by simpa using hr.1, hr.2.1, hr.2.2.1, hr.2.2.2.1,
                hr.2.2.2.2.1, hr.2.2.2.2.2.1, hr.2.2.2.2.2.2.1, ?_,
                hr.2.2.2.2.2.2.2.2⟩
              simpa using hr.2.2.2.2.2.2.2.1
            · simp [attemptStep, hs, hc, ha] at h
          · simp [attemptStep, hs, hc] at h
            obtain ⟨ho, hst, hcs, hws⟩ := h
            rw [← ho] at hsucc
            rw [hsucc] at hs
            exact absurd rfl hs
          · by_cases hl : looks_like_limit_exhaustion (run k).error_message
            · simp [attemptStep, hs, hc, hl] at h
            · simp [attemptStep, hs, hc, hl] at h
              obtain ⟨ho, hst, hcs, hws⟩ := h
              rw [← ho] at hsucc
              rw [hsucc] at hs
              exact absurd rfl hs

lemma attemptLoop_moveOn_spec (run : Nat → ProviderResult) (now : Int)
    (tzdb : String → Option Int) (rcfg : RetryConfig) (p : Provider) (prompt : String)
    (sess : Option String) :
    ∀ (fuel attempt k : Nat) (last : Option ProviderResult) (state : ClaudexState)
      (last' : Option ProviderResult) (st' : ClaudexState) (cs : List CallRecord)
      (ws : List ℚ),
      attemptLoop run now tzdb rcfg p prompt sess fuel attempt k last state =
        (.moveOn last', st', cs, ws) →
      optFail last →
      optFail last' ∧
      st'.turn_count = state.turn_count ∧
      st'.last_provider = state.last_provider ∧
      ∀ q, (st'.get_provider_state q).session_id =
        (state.get_provider_state q).session_id := by
  intro fuel
  induction fuel with
  | zero =>
      intro attempt k last state last' st' cs ws h hlast
      rw [attemptLoop_zero] at h
      obtain ⟨h1, h2, h3, h4⟩ := by simpa [Prod.mk.injEq] using h
      subst h1
      subst h2
      exact ⟨hlast, rfl, rfl, fun q => rfl⟩
  | succ fuel ih =>
      intro attempt k last state last' st' cs ws h hlast
      rw [attemptLoop_succ] at h
      obtain ⟨o1, s1, c1, w1, hrec⟩ :
          ∃ o s c w, attemptLoop run now tzdb rcfg p prompt sess fuel (attempt + 1)
            (k + 1) (some (run k))
            (state.set_provider_state p
              { state.get_provider_state p with
                consecutive_errors :=
                  (state.get_provider_state p).consecutive_errors + 1 }) =
            (o, s, c, w) := ⟨_, _, _, _, rfl⟩
      have hsessf : ∀ q : Provider,
          ((state.set_provider_state p
            { state.get_provider_state p with
              consecutive_errors :=
                (state.get_provider_state p).consecutive_errors + 1
            }).get_provider_state q).session_id =
          (state.get_provider_state q).session_id := by
        intro q
        by_cases hq : q = p
        · subst hq
          simp
        · rw [get_provider_state_set_ne _ _ hq]
      by_cases hs : (run k).success
      · simp [attemptStep, hs] at h
      · have hfailk : optFail (some (run k)) := by
          intro r₀ hr₀
          cases hr₀
          simpa using hs
        rcases hc : (run k).error_class with _ | cls
        · simp [attemptStep, hs, hc, hrec] at h
          obtain ⟨ho, hst, hcs, hws⟩ := h
          subst ho
          subst hst
          have hr := ih (attempt + 1) (k + 1) (some (run k)) _ last' _ _ _ hrec hfailk
          refine ⟨hr.1, by simpa using hr.2.1, by simpa using hr.2.2.1, fun q => ?_⟩
          rw [hr.2.2.2 q, hsessf q]
        · cases cls
          · simp [attemptStep, hs, hc] at h
            obtain ⟨ho, hst, hcs, hws⟩ := h
            subst ho
            subst hst
            refine ⟨hfailk, by simp, by simp, fun q => ?_⟩
            by_cases hq : q = p
            · subst hq
              simp [apply_cooldown]
            · rw [get_provider_state_set_ne _ _ hq, get_provider_state_set_ne _ _ hq]
          · by_cases ha : attempt < rcfg.max_retries
            · simp [attemptStep, hs, hc, ha, hrec] at h
              obtain ⟨ho, hst, hcs, hws⟩ := h
              subst ho
              subst hst
              have hr := ih (attempt + 1) (k + 1) (some (run k)) _ last' _ _ _ hrec
                hfailk
              refine ⟨hr.1, by simpa using hr.2.1, by simpa using hr.2.2.1,
                fun q => ?_⟩
              rw [hr.2.2.2 q, hsessf q]
            · simp [attemptStep, hs, hc, ha] at h
              obtain ⟨ho, hst, hcs, hws⟩ := h
              subst ho
              subst hst
              refine ⟨hfailk, by simp, by simp, fun q => ?_⟩
              by_cases hq : q = p
              · subst hq
                simp [apply_cooldown]
              · rw [get_provider_state_set_ne _ _ hq,
                  get_provider_state_set_ne _ _ hq]
          · simp [attemptStep, hs, hc] at h
          · by_cases hl : looks_like_limit_exhaustion (run k).error_message
            · simp [attemptStep, hs, hc, hl] at h
              obtain ⟨ho, hst, hcs, hws⟩ := h
              subst ho
              subst hst
              refine ⟨hfailk, by simp, by simp, fun q => ?_⟩
              by_cases hq : q = p
              · subst hq
                simp [apply_cooldown]
              · rw [get_provider_state_set_ne _ _ hq,
                  get_provider_state_set_ne _ _ hq]
            · simp [attemptStep, hs, hc, hl] at h

lemma routeAttempt_success_spec (env : RouterEnv) (cfg : Config) (p : Provider)
    (prompt : String) (sess : Option String) (lastRes : Option ProviderResult)
    (counts : Provider → Nat) (state : ClaudexState) (confirms0 : List ConfirmRecord)
    (cont : Option Provider → Option ProviderResult → (Provider → Nat) → ClaudexState →
      RunOutcome)
    (hlast : optFail lastRes)
    (hcont : ∀ prev' last' counts' st₁, optFail last' →
      SuccessSpec st₁ (cont prev' last' counts' st₁)) :
    SuccessSpec state (routeAttempt env cfg p prompt sess lastRes counts state confirms0
      cont) := by
  obtain ⟨o, st₁, cs, ws, hstep⟩ :
      ∃ o s c w, attemptLoop (env.runs p) env.now env.tzdb cfg.retry p prompt sess
        (cfg.retry.max_retries + 1) 0 (counts p) lastRes state = (o, s, c, w) :=
    ⟨_, _, _, _, rfl⟩
  intro r q hres hprov hsucc
  cases o with
  | terminal r' =>
      simp [routeAttempt, hstep] at hres hprov ⊢
      subst hres
      subst hprov
      exact attemptLoop_terminal_success_spec (env.runs p) env.now env.tzdb cfg.retry p
        prompt sess (cfg.retry.max_retries + 1) 0 (counts p) lastRes state _ _ _ _
        hstep hsucc
  | moveOn last' =>
      have hmv := attemptLoop_moveOn_spec (env.runs p) env.now env.tzdb cfg.retry p
        prompt sess (cfg.retry.max_retries + 1) 0 (counts p) lastRes state last' st₁ cs
        ws hstep hlast
      simp [routeAttempt, hstep] at hres hprov ⊢
      have hc := hcont (some p) last'
        (fun q' => if q' = p then counts p + cs.length else counts q') st₁ hmv.1 r q
        hres hprov hsucc
      refine ⟨by rw [hc.1, hmv.2.1], hc.2.1, hc.2.2.1, hc.2.2.2.1, hc.2.2.2.2.1,
        hc.2.2.2.2.2.1, hc.2.2.2.2.2.2.1, ?_, hc.2.2.2.2.2.2.2.2⟩
      rw [hc.2.2.2.2.2.2.2.1, hmv.2.2.2 q]

lemma routeStep_success_spec (env : RouterEnv) (up : String) (cfg : Config)
    (handoff : Option String) (p : Provider) (prevProv : Option Provider)
    (lastRes : Option ProviderResult) (counts : Provider → Nat) (state : ClaudexState)
    (cont : Option Provider → Option ProviderResult → (Provider → Nat) → ClaudexState →
      RunOutcome)
    (hlast : optFail lastRes)
    (hcont : ∀ prev' last' counts' st₁, optFail last' →
      SuccessSpec st₁ (cont prev' last' counts' st₁)) :
    SuccessSpec state (routeStep env up cfg handoff p prevProv lastRes counts state
      cont) := by
  rcases prevProv with _ | prev
  · exact routeAttempt_success_spec env cfg p up ((state.get_provider_state p).session_id)
      lastRes counts state [] cont hlast hcont
  · rcases lastRes with _ | lastR
    · exact routeAttempt_success_spec env cfg p
        (build_provider_prompt up env.snapshot true handoff) none none counts state []
        cont hlast hcont
    · rcases hcsw : env.confirmSwitch with _ | f
      · intro r q hres hprov hsucc
        have := routeAttempt_success_spec env cfg p
          (build_provider_prompt up env.snapshot true handoff) none (some lastR) counts
          state [] cont hlast hcont
        simp only [routeStep, hcsw] at hres hprov ⊢
        exact this r q hres hprov hsucc
      · rcases hf : f prev p lastR
        · intro r q hres hprov hsucc
          simp [routeStep, hcsw, hf] at hres
          have := hlast r (by rw [hres])
          rw [this] at hsucc
          exact absurd hsucc (by simp)
        · intro r q hres hprov hsucc
          have := routeAttempt_success_spec env cfg p
            (build_provider_prompt up env.snapshot true handoff) none (some lastR)
            counts state [⟨prev, p, lastR, true⟩] cont hlast hcont
          simp only [routeStep, hcsw, hf] at hres hprov ⊢
          simp only [Bool.not_true, Bool.false_eq_true, if_false] at hres hprov ⊢
          exact this r q hres hprov hsucc

lemma routeLoop_success_spec (env : RouterEnv) (up : String) (cfg : Config)
    (handoff : Option String) :
    ∀ (providers : List Provider) (prevProv : Option Provider)
      (lastRes : Option ProviderResult) (counts : Provider → Nat) (state : ClaudexState),
      optFail lastRes →
      SuccessSpec state
        (routeLoop env up cfg handoff providers prevProv lastRes counts state) := by
  intro providers
  induction providers with
  | nil =>
      intro prevProv lastRes counts state hlast
      intro r q hres hprov hsucc
      rw [routeLoop_nil] at hres
      have := hlast r hres
      rw [this] at hsucc
      exact absurd hsucc (by simp)
  | cons p0 rest ihr =>
      intro prevProv lastRes counts state hlast
      rw [routeLoop_cons]
      exact routeStep_success_spec env up cfg handoff p0 prevProv lastRes counts state _
        hlast (fun prev' last' counts' st₁ hl => ihr prev' last' counts' st₁ hl)

/-- `run_with_retry` satisfies the success-path postconditions relative to
the input state. -/
lemma run_with_retry_success_spec (env : RouterEnv) (up : String) (state : ClaudexState)
    (cfg : Config) (handoff : Option String) :
    SuccessSpec state (run_with_retry env up state cfg handoff) := by
  rw [run_with_retry]
  by_cases he : get_available_providers state cfg env.now = []
  · simp only [he, if_pos rfl]
    intro r q hres hprov hsucc
    simp at hres
  · simp only [if_neg he]
    exact routeLoop_success_spec env up cfg handoff _ none none (fun _ => 0) state
      (fun r₀ h => by simp at h)

lemma pyOrOpt_ne_none {a b : Option String}
    (h : (a ≠ none ∧ a ≠ some "") ∨ b ≠ none) : pyOrOpt a b ≠ none := by
  rcases a with _ | s
  · rcases h with ⟨h1, _⟩ | h2
    · exact absurd rfl h1
    · simpa [pyOrOpt] using h2
  · by_cases hs : s = ""
    · subst hs
      rcases h with ⟨_, h1⟩ | h2
      · exact absurd rfl h1
      · simpa [pyOrOpt] using h2
    · simp [pyOrOpt, hs]

/-- Environment of the no-session success scenario: claude immediately
succeeds with text but reports no session id (the shape of the Claude
adapter's plain-text success path). -/
def envNoSession : RouterEnv :=
  { runs := fun _ _ => { success := true, text := some "hello" },
    tzdb := fun _ => none, now := 0, snapshot := "" }

/-- The outcome of the no-session success scenario from a fresh state. -/
def outNoSession : RunOutcome := run_with_retry envNoSession "hi" {} {} none

/-- C1 counterexample: a successful turn whose provider result carries no
session id leaves the provider's `session_id` null — the returned turn is a
success with `provider_used = claude` and `turn_count` incremented, yet
`claude.session_id` is null, refuting the claim's "that provider's
`session_id` is non-null". -/
theorem C1_counterexample :
    outNoSession.result.map (fun r => r.success) = some true ∧
    outNoSession.provider_used = some Provider.claude ∧
    outNoSession.state.turn_count = 1 ∧
    (outNoSession.state.get_provider_state Provider.claude).session_id = none := by
  decide

/-- C1 (amended): for every successful turn returned by `run_with_retry`,
`turn_count` increments by exactly 1, `last_provider` equals the returning
provider, and all five of that provider's cooldown fields are null; the
provider's `session_id` equals the result's session id when that is non-null
and non-empty and otherwise keeps its previous value — so it is non-null
exactly under that condition, not unconditionally. -/
theorem C1_success_state_update (env : RouterEnv) (up : String) (state : ClaudexState)
    (cfg : Config) (handoff : Option String) (r : ProviderResult) (p : Provider)
    (hres : (run_with_retry env up state cfg handoff).result = some r)
    (hprov : (run_with_retry env up state cfg handoff).provider_used = some p)
    (hsucc : r.success = true) :
    (run_with_retry env up state cfg handoff).state.turn_count = state.turn_count + 1 ∧
    (run_with_retry env up state cfg handoff).state.last_provider = some p ∧
    ((run_with_retry env up state cfg handoff).state.get_provider_state p).cooldown_until
      = none ∧
    ((run_with_retry env up state cfg
      handoff).state.get_provider_state p).cooldown_started_at = none ∧
    ((run_with_retry env up state cfg
      handoff).state.get_provider_state p).cooldown_source = none ∧
    ((run_with_retry env up state cfg
      handoff).state.get_provider_state p).cooldown_reason = none ∧
    ((run_with_retry env up state cfg
      handoff).state.get_provider_state p).cooldown_message_excerpt = none ∧
    ((run_with_retry env up state cfg handoff).state.get_provider_state p).session_id =
      pyOrOpt r.session_id ((state.get_provider_state p).session_id) ∧
    (((r.session_id ≠ none ∧ r.session_id ≠ some "") ∨
        (state.get_provider_state p).session_id ≠ none) →
      ((run_with_retry env up state cfg handoff).state.get_provider_state p).session_id
        ≠ none) := by
  have h := run_with_retry_success_spec env up state cfg handoff r p hres hprov hsucc
  refine ⟨h.1, h.2.1, h.2.2.1, h.2.2.2.1, h.2.2.2.2.1, h.2.2.2.2.2.1,
    h.2.2.2.2.2.2.1, h.2.2.2.2.2.2.2.1, ?_⟩
  intro hor
  rw [h.2.2.2.2.2.2.2.1]
  exact pyOrOpt_ne_none hor

/-- A successful claude result with session id `s1`. -/
def claudeOkS1 : ProviderResult :=
  { success := true, text := some "hello", session_id := some "s1" }

/-- Environment of the session-update success scenario: claude immediately
succeeds with session id `s1`. -/
def envSession : RouterEnv :=
  { runs := fun _ _ => claudeOkS1, tzdb := fun _ => none, now := 0, snapshot := "" }

theorem C1_success_state_update_witness :
    (run_with_retry envSession "hi" {} {} none).state.turn_count =
      ({} : ClaudexState).turn_count + 1 ∧
    (run_with_retry envSession "hi" {} {} none).state.last_provider =
      some Provider.claude ∧
    ((run_with_retry envSession "hi" {} {}
      none).state.get_provider_state Provider.claude).session_id ≠ none := by
  have h := C1_success_state_update envSession "hi" {} {} none claudeOkS1
    Provider.claude (by decide) (by decide) (by decide)
  exact ⟨h.1, h.2.1, h.2.2.2.2.2.2.2.2 (Or.inl (by decide))⟩

/-- C10: a successful turn whose `ProviderResult` carries a null session id
leaves the provider's stored `session_id` unchanged — never overwriting a
stored id with null, and keeping it null for a provider that never reported
one; and the Claude adapter's plain-text success path (valid non-empty
stdout that is not JSON, exit code 0) indeed returns a successful result
with a null session id. -/
theorem C10_null_session_preserved (env : RouterEnv) (up : String)
    (state : ClaudexState) (cfg : Config) (handoff : Option String)
    (r : ProviderResult) (p : Provider)
    (hres : (run_with_retry env up state cfg handoff).result = some r)
    (hprov : (run_with_retry env up state cfg handoff).provider_used = some p)
    (hsucc : r.success = true)
    (hnull : r.session_id = none) :
    ((run_with_retry env up state cfg handoff).state.get_provider_state p).session_id =
      (state.get_provider_state p).session_id ∧
    ((state.get_provider_state p).session_id = none →
      ((run_with_retry env up state cfg handoff).state.get_provider_state p).session_id
        = none) ∧
    (∀ stdout raw : String, stdout ≠ "" →
      (claude_parse none stdout 0 raw).success = true ∧
      (claude_parse none stdout 0 raw).session_id = none) := by
  have h := run_with_retry_success_spec env up state cfg handoff r p hres hprov hsucc
  have hsid := h.2.2.2.2.2.2.2.1
  rw [hnull] at hsid
  refine ⟨hsid, fun hn => by rw [hsid, hn]; rfl, fun stdout raw hne => ?_⟩
  constructor <;> simp [claude_parse, hne]

/-- State of the C10 witness scenario: claude has a stored session id. -/
def stateKeep : ClaudexState :=
  { claude := { session_id := some "keep_me" } }

theorem C10_null_session_preserved_witness :
    ((run_with_retry envNoSession "hi" stateKeep {} none).state.get_provider_state
      Provider.claude).session_id = some "keep_me" ∧
    (claude_parse none "plain text answer" 0 "plain text answer").session_id = none := by
  have h := C10_null_session_preserved envNoSession "hi" stateKeep {} none
    { success := true, text := some "hello" } Provider.claude
    (by decide) (by decide) (by decide) (by decide)
  exact ⟨h.1.trans (by decide), (h.2.2 "plain text answer" "plain text answer" (by decide)).2⟩

/-- A failing quota-exhausted result. -/
def quotaFail : ProviderResult :=
  { success := false, error_class := some .QUOTA_EXHAUSTED,
    error_message := some "limit" }

/-- Environment of the denied-switch scenario: claude fails with quota
exhaustion, codex would succeed, and the confirmation callback denies. -/
def envDeny : RouterEnv :=
  { runs := fun p _ =>
      match p with
      | .claude => quotaFail
      | .codex => codexOk,
    tzdb := fun _ => none, now := 0, snapshot := "",
    confirmSwitch := some fun _ _ _ => false }

theorem C3_confirm_switch_witness :
    (run_with_retry envDeny "go" {} {} none).result = some quotaFail ∧
    (run_with_retry envDeny "go" {} {} none).provider_used = some Provider.claude ∧
    (run_with_retry envDeny "go" {} {} none).calls.map (fun c => c.provider) =
      [Provider.claude] ∧
    (run_with_retry envDeny "go" {} {} none).confirms =
      [⟨Provider.claude, Provider.codex, quotaFail, false⟩] := by
  have h := C3_confirm_switch envDeny "go" {} {} none Provider.claude Provider.codex
    quotaFail (by decide) (by decide) rfl (by decide) (by decide)
  have ha := h.1 (fun _ _ _ => false) rfl rfl
  exact ⟨ha.1, ha.2.1, ha.2.2.1, ha.2.2.2⟩

/-- A failing auth-required result. -/
def authFail : ProviderResult :=
  { success := false, error_class := some .AUTH_REQUIRED,
    error_message := some "please log in" }

/-- Environment of the auth-failure scenario. -/
def envAuth : RouterEnv :=
  { runs := fun p _ =>
      match p with
      | .claude => authFail
      | .codex => codexOk,
    tzdb := fun _ => none, now := 0, snapshot := "" }

theorem C6_auth_other_immediate_witness :
    (run_with_retry envAuth "hi" {} {} none).result = some authFail ∧
    (run_with_retry envAuth "hi" {} {} none).provider_used = some Provider.claude ∧
    (run_with_retry envAuth "hi" {} {} none).calls.map (fun c => c.provider) =
      [Provider.claude] ∧
    ((run_with_retry envAuth "hi" {} {}
      none).state.get_provider_state Provider.codex).cooldown_until = none := by
  have h := C6_auth_other_immediate envAuth "hi" {} {} none Provider.claude
    [Provider.codex] authFail (by decide) rfl (by decide) (Or.inl (by decide))
  refine ⟨(congrArg RunOutcome.result h.1).trans (by decide),
    (congrArg RunOutcome.provider_used h.1).trans (by decide),
    (congrArg (fun o => o.calls.map (fun c => c.provider)) h.1).trans (by decide),
    (h.2 Provider.codex).1.trans (by decide)⟩

/-- A failing transient-rate-limit result. -/
def transientFail : ProviderResult :=
  { success := false, error_class := some .TRANSIENT_RATE_LIMIT,
    error_message := some "429 too many requests" }

/-- Environment of the C5 counterexample: claude fails transiently exactly
once (its call 0), then succeeds; codex never reached. -/
def envOneTransient : RouterEnv :=
  { runs := fun p k =>
      match p with
      | .claude => if k = 0 then transientFail else claudeOkS1
      | .codex => codexOk,
    tzdb := fun _ => none, now := 0, snapshot := "" }

/-- C5 counterexample: with the default config (`max_retries = 3`) and a
single `TransientRateLimit` failure (`n = 1`) followed by success, the
adapter is invoked 2 times, not `min(1, max_retries + 1) = 1` as the claim
states: the invocation count formula of the claim counts only the failing
invocations. -/
theorem C5_counterexample :
    ((run_with_retry envOneTransient "go" {} {} none).calls.countP
      (fun c => decide (c.provider = Provider.claude))) = 2 ∧
    (2 : Nat) ≠ min 1 (({} : Config).retry.max_retries + 1) := by
  constructor
  · decide
  · decide

/-- Retry config of the C8 counterexample: `backoff_base = 0`,
`backoff_max` left at its default 30. -/
def cfgZeroBase : Config :=
  { retry := { max_retries := 1, backoff_base := 0 } }

/-- Environment of the C8 counterexample: claude always fails transiently,
codex succeeds. -/
def envAllTransient : RouterEnv :=
  { runs := fun p _ =>
      match p with
      | .claude => transientFail
      | .codex => codexOk,
    tzdb := fun _ => none, now := 0, snapshot := "" }

/-- C8 counterexample: configuring `backoff_base = 0` does *not* disable the
backoff wait: on retry attempt 0 the computed wait is
`min(0 ** 0, backoff_max) = min(1, 30) = 1` (Python evaluates `0 ** 0` to
1), so a positive one-second sleep is still performed. -/
theorem C8_counterexample :
    (run_with_retry envAllTransient "go" {} cfgZeroBase none).waits = [1] ∧
    (0 : ℚ) < 1 := by
  constructor
  · decide
  · decide

lemma attemptLoop_frame (run : Nat → ProviderResult) (now : Int)
    (tzdb : String → Option Int) (rcfg : RetryConfig) (p : Provider) (prompt : String)
    (sess : Option String) :
    ∀ (fuel attempt k : Nat) (last : Option ProviderResult) (state : ClaudexState),
      (∀ q : Provider, q ≠ p →
        ((attemptLoop run now tzdb rcfg p prompt sess fuel attempt k last
          state).2.1).get_provider_state q = state.get_provider_state q) ∧
      (∀ c ∈ (attemptLoop run now tzdb rcfg p prompt sess fuel attempt k last
        state).2.2.1, c.provider = p) := by
  intro fuel
  induction fuel with
  | zero =>
      intro attempt k last state
      rw [attemptLoop_zero]
      exact ⟨fun q _ => rfl, fun c hc => by simp at hc⟩
  | succ fuel ih =>
      intro attempt k last state
      rw [attemptLoop_succ]
      obtain ⟨o1, s1, c1, w1, hrec⟩ :
          ∃ o s c w, attemptLoop run now tzdb rcfg p prompt sess fuel (attempt + 1)
            (k + 1) (some (run k))
            (state.set_provider_state p
              { state.get_provider_state p with
                consecutive_errors :=
                  (state.get_provider_state p).consecutive_errors + 1 }) =
            (o, s, c, w) := ⟨_, _, _, _, rfl⟩
      have ihr := ih (attempt + 1) (k + 1) (some (run k))
        (state.set_provider_state p
          { state.get_provider_state p with
            consecutive_errors :=
              (state.get_provider_state p).consecutive_errors + 1 })
      rw [hrec] at ihr
      have hcompose : ∀ q : Provider, q ≠ p →
          s1.get_provider_state q = state.get_provider_state q := by
        intro q hq
        rw [ihr.1 q hq, get_provider_state_set_ne _ _ hq]
      by_cases hs : (run k).success
      · simp only [attemptStep, hs, if_true]
        refine ⟨fun q hq => ?_, fun c hc => ?_⟩
        · simp only [get_provider_state_meta_update]
          rw [get_provider_state_set_ne _ _ hq]
        · simp at hc
          simp [hc]
      · rcases hc : (run k).error_class with _ | cls
        · simp only [attemptStep, hs, Bool.false_eq_true, if_false, hc]
          simp only [show ((none : Option ErrorClass) = some ErrorClass.OTHER_ERROR ∧
            looks_like_limit_exhaustion (run k).error_message = true) = False by simp,
            if_false, hrec]
          refine ⟨hcompose, fun c hcm => ?_⟩
          simp at hcm
          rcases hcm with hcm | hcm
          · simp [hcm]
          · exact ihr.2 c hcm
        · cases cls
          · simp only [attemptStep, hs, Bool.false_eq_true, if_false, hc]
            simp
            intro q hq
            rw [get_provider_state_set_ne _ _ hq, get_provider_state_set_ne _ _ hq]
          · by_cases ha : attempt < rcfg.max_retries
            · simp only [attemptStep, hs, Bool.false_eq_true, if_false, hc]
              simp only [show ((some ErrorClass.TRANSIENT_RATE_LIMIT =
                some ErrorClass.OTHER_ERROR) ∧
                looks_like_limit_exhaustion (run k).error_message = true) = False by
                  simp, if_false, ha, if_true, hrec]
              refine ⟨hcompose, fun c hcm => ?_⟩
              simp at hcm
              rcases hcm with hcm | hcm
              · simp [hcm]
              · exact ihr.2 c hcm
            · simp only [attemptStep, hs, Bool.false_eq_true, if_false, hc]
              simp [ha]
              intro q hq
              rw [get_provider_state_set_ne _ _ hq, get_provider_state_set_ne _ _ hq]
          · simp only [attemptStep, hs, Bool.false_eq_true, if_false, hc]
            simp
            intro q hq
            rw [get_provider_state_set_ne _ _ hq]
          · by_cases hl : looks_like_limit_exhaustion (run k).error_message
            · simp only [attemptStep, hs, Bool.false_eq_true, if_false, hc]
              simp [hl]
              intro q hq
              rw [get_provider_state_set_ne _ _ hq, get_provider_state_set_ne _ _ hq]
            · simp only [attemptStep, hs, Bool.false_eq_true, if_false, hc]
              simp [hl]
              intro q hq
              rw [get_provider_state_set_ne _ _ hq]

lemma routeAttempt_frame (env : RouterEnv) (cfg : Config) (p : Provider)
    (prompt : String) (sess : Option String) (lastRes : Option ProviderResult)
    (counts : Provider → Nat) (state : ClaudexState) (confirms0 : List ConfirmRecord)
    (cont : Option Provider → Option ProviderResult → (Provider → Nat) → ClaudexState →
      RunOutcome) (S : List Provider)
    (hcont : ∀ prev' last' counts' st₁,
      (∀ q : Provider, q ∉ S →
        ((cont prev' last' counts' st₁).state).get_provider_state q =
          st₁.get_provider_state q) ∧
      (∀ c ∈ (cont prev' last' counts' st₁).calls, c.provider ∈ S)) :
    (∀ q : Provider, q ≠ p → q ∉ S →
      ((routeAttempt env cfg p prompt sess lastRes counts state confirms0
        cont).state).get_provider_state q = state.get_provider_state q) ∧
    (∀ c ∈ (routeAttempt env cfg p prompt sess lastRes counts state confirms0
      cont).calls, c.provider = p ∨ c.provider ∈ S) := by
  obtain ⟨o, st₁, cs, ws, hstep⟩ :
      ∃ o s c w, attemptLoop (env.runs p) env.now env.tzdb cfg.retry p prompt sess
        (cfg.retry.max_retries + 1) 0 (counts p) lastRes state = (o, s, c, w) :=
    ⟨_, _, _, _, rfl⟩
  have hframe := attemptLoop_frame (env.runs p) env.now env.tzdb cfg.retry p prompt
    sess (cfg.retry.max_retries + 1) 0 (counts p) lastRes state
  rw [hstep] at hframe
  cases o with
  | terminal r' =>
      simp only [routeAttempt, hstep]
      exact ⟨fun q hq _ => hframe.1 q hq, fun c hcm => Or.inl (hframe.2 c hcm)⟩
  | moveOn last' =>
      simp only [routeAttempt, hstep]
      have hct := hcont (some p) last'
        (fun q' => if q' = p then counts p + cs.length else counts q') st₁
      refine ⟨fun q hq hqs => ?_, fun c hcm => ?_⟩
      · rw [hct.1 q hqs, hframe.1 q hq]
      · simp at hcm
        rcases hcm with hcm | hcm
        · exact Or.inl (hframe.2 c hcm)
        · exact Or.inr (hct.2 c hcm)

lemma routeStep_frame (env : RouterEnv) (up : String) (cfg : Config)
    (handoff : Option String) (p : Provider) (prevProv : Option Provider)
    (lastRes : Option ProviderResult) (counts : Provider → Nat) (state : ClaudexState)
    (cont : Option Provider → Option ProviderResult → (Provider → Nat) → ClaudexState →
      RunOutcome) (S : List Provider)
    (hcont : ∀ prev' last' counts' st₁,
      (∀ q : Provider, q ∉ S →
        ((cont prev' last' counts' st₁).state).get_provider_state q =
          st₁.get_provider_state q) ∧
      (∀ c ∈ (cont prev' last' counts' st₁).calls, c.provider ∈ S)) :
    (∀ q : Provider, q ≠ p → q ∉ S →
      ((routeStep env up cfg handoff p prevProv lastRes counts state
        cont).state).get_provider_state q = state.get_provider_state q) ∧
    (∀ c ∈ (routeStep env up cfg handoff p prevProv lastRes counts state cont).calls,
      c.provider = p ∨ c.provider ∈ S) := by
  rcases prevProv with _ | prev
  · exact routeAttempt_frame env cfg p up ((state.get_provider_state p).session_id)
      lastRes counts state [] cont S hcont
  · rcases lastRes with _ | lastR
    · exact routeAttempt_frame env cfg p
        (build_provider_prompt up env.snapshot true handoff) none none counts state []
        cont S hcont
    · rcases hcsw : env.confirmSwitch with _ | f
      · have := routeAttempt_frame env cfg p
          (build_provider_prompt up env.snapshot true handoff) none (some lastR) counts
          state [] cont S hcont
        constructor
        · intro q hq hqs
          have h1 := this.1 q hq hqs
          simp only [routeStep, hcsw] at h1 ⊢
          exact h1
        · intro c hcm
          refine this.2 c ?_
          simp only [routeStep, hcsw] at hcm ⊢
          exact hcm
      · rcases hf : f prev p lastR
        · constructor
          · intro q hq hqs
            simp [routeStep, hcsw, hf]
          · intro c hcm
            simp [routeStep, hcsw, hf] at hcm
        · have := routeAttempt_frame env cfg p
            (build_provider_prompt up env.snapshot true handoff) none (some lastR)
            counts state [⟨prev, p, lastR, true⟩] cont S hcont
          constructor
          · intro q hq hqs
            have h1 := this.1 q hq hqs
            simp only [routeStep, hcsw, hf] at h1 ⊢
            simp only [Bool.not_true, Bool.false_eq_true, if_false] at h1 ⊢
            exact h1
          · intro c hcm
            refine this.2 c ?_
            simp only [routeStep, hcsw, hf] at hcm ⊢
            simp only [Bool.not_true, Bool.false_eq_true, if_false] at hcm ⊢
            exact hcm

lemma routeLoop_frame (env : RouterEnv) (up : String) (cfg : Config)
    (handoff : Option String) :
    ∀ (providers : List Provider) (prevProv : Option Provider)
      (lastRes : Option ProviderResult) (counts : Provider → Nat)
      (state : ClaudexState),
      (∀ q : Provider, q ∉ providers →
        ((routeLoop env up cfg handoff providers prevProv lastRes counts
          state).state).get_provider_state q = state.get_provider_state q) ∧
      (∀ c ∈ (routeLoop env up cfg handoff providers prevProv lastRes counts
        state).calls, c.provider ∈ providers) := by
  intro providers
  induction providers with
  | nil =>
      intro prevProv lastRes counts state
      rw [routeLoop_nil]
      exact ⟨fun q _ => rfl, fun c hc => by simp at hc⟩
  | cons p0 rest ihr =>
      intro prevProv lastRes counts state
      rw [routeLoop_cons]
      have h := routeStep_frame env up cfg handoff p0 prevProv lastRes counts state
        (fun prev' last' counts' state' =>
          routeLoop env up cfg handoff rest prev' last' counts' state') rest
        (fun prev' last' counts' st₁ => ihr prev' last' counts' st₁)
      constructor
      · intro q hq
        simp at hq
        exact h.1 q hq.1 hq.2
      · intro c hcm
        rcases h.2 c hcm with h1 | h1
        · simp [h1]
        · simp [h1]

lemma attemptLoop_all_transient (run : Nat → ProviderResult) (now : Int)
    (tzdb : String → Option Int) (rcfg : RetryConfig) (p : Provider) (prompt : String)
    (sess : Option String) :
    ∀ (fuel attempt k : Nat) (last : Option ProviderResult) (state : ClaudexState),
      attempt + fuel = rcfg.max_retries + 1 →
      0 < fuel →
      (∀ j, j < fuel → (run (k + j)).success = false ∧
        (run (k + j)).error_class = some .TRANSIENT_RATE_LIMIT) →
      ∃ st',
        attemptLoop run now tzdb rcfg p prompt sess fuel attempt k last state =
          (.moveOn (some (run (k + (fuel - 1)))), st',
           (List.range fuel).map (fun j => CallRecord.mk p prompt sess (run (k + j))),
           (List.range (fuel - 1)).map (fun j =>
             min (rcfg.backoff_base ^ (attempt + j)) rcfg.backoff_max)) ∧
        (st'.get_provider_state p).cooldown_source =
          some "transient_retry_exhausted" ∧
        (st'.get_provider_state p).cooldown_until =
          some (now + rcfg.transient_cooldown_minutes) := by
  intro fuel
  induction fuel with
  | zero =>
      intro attempt k last state _ hpos _
      exact absurd hpos (by simp)
  | succ fuel ih =>
      intro attempt k last state hsum _ htr
      have h0 := htr 0 (Nat.succ_pos fuel)
      have hs : (run k).success = false := by simpa using h0.1
      have hc : (run k).error_class = some .TRANSIENT_RATE_LIMIT := by simpa using h0.2
      rw [attemptLoop_succ]
      cases fuel with
      | zero =>
          have ha : ¬ (attempt < rcfg.max_retries) := by omega
          obtain ⟨o1, s1, c1, w1, heq⟩ :
              ∃ o s c w, attemptStep run now tzdb rcfg p prompt sess attempt k state
                (fun a k' l s => attemptLoop run now tzdb rcfg p prompt sess 0 a k' l
                  s) = (o, s, c, w) := ⟨_, _, _, _, rfl⟩
          have heq2 := heq
          simp [attemptStep, hs, hc, ha] at heq2
          obtain ⟨ho, hst, hcall, hwait⟩ := heq2
          subst ho
          subst hcall
          subst hwait
          refine ⟨s1, ?_, ?_, ?_⟩
          · rw [heq]
            simp [List.range_succ]
          · rw [← hst]
            simp [apply_cooldown, transient_cooldown_decision]
          · rw [← hst]
            simp [apply_cooldown, transient_cooldown_decision]
      | succ fuel' =>
          have ha : attempt < rcfg.max_retries := by omega
          obtain ⟨st', hrec, hsrc, huntil⟩ := ih (attempt + 1) (k + 1) (some (run k))
            (state.set_provider_state p
              { state.get_provider_state p with
                consecutive_errors :=
                  (state.get_provider_state p).consecutive_errors + 1 })
            (by omega) (Nat.succ_pos fuel')
            (fun j hj => by
              have := htr (j + 1) (by omega)
              constructor
              · have h1 := this.1
                have harith : k + (j + 1) = k + 1 + j := by omega
                rw [harith] at h1
                exact h1
              · have h2 := this.2
                have harith : k + (j + 1) = k + 1 + j := by omega
                rw [harith] at h2
                exact h2)
          refine ⟨st', ?_, hsrc, huntil⟩
          simp only [attemptStep, hs, Bool.false_eq_true, if_false, hc]
          simp only [show ((some ErrorClass.TRANSIENT_RATE_LIMIT =
            some ErrorClass.OTHER_ERROR) ∧
            looks_like_limit_exhaustion (run k).error_message = true) = False by simp,
            if_false, ha, if_true, hrec]
          simp only [Prod.mk.injEq]
          refine ⟨?_, trivial, ?_, ?_⟩
          · 
            have : k + 1 + (fuel' + 1 - 1) = k + (fuel' + 1 + 1 - 1) := by omega
            rw [this]
          · conv_rhs => rw [List.range_succ_eq_map, List.map_cons, List.map_map]
            congr 1
            simp
            intro a h'
            congr 1
            omega
          · 
            have h1 : fuel' + 1 + 1 - 1 = (fuel' + 1 - 1) + 1 := by omega
            rw [h1, List.range_succ_eq_map, List.map_cons, List.map_map]
            congr 1
            refine List.map_congr_left (fun j _ => ?_)
            simp only [Function.comp]
            congr 2
            omega

lemma attemptLoop_transient_then_success (run : Nat → ProviderResult) (now : Int)
    (tzdb : String → Option Int) (rcfg : RetryConfig) (p : Provider) (prompt : String)
    (sess : Option String) :
    ∀ (fuel n attempt k : Nat) (last : Option ProviderResult) (state : ClaudexState),
      attempt + fuel = rcfg.max_retries + 1 →
      n < fuel →
      (∀ j, j < n → (run (k + j)).success = false ∧
        (run (k + j)).error_class = some .TRANSIENT_RATE_LIMIT) →
      (run (k + n)).success = true →
      ∃ st',
        attemptLoop run now tzdb rcfg p prompt sess fuel attempt k last state =
          (.terminal (run (k + n)), st',
           (List.range (n + 1)).map (fun j => CallRecord.mk p prompt sess (run (k + j))),
           (List.range n).map (fun j =>
             min (rcfg.backoff_base ^ (attempt + j)) rcfg.backoff_max)) := by
  intro fuel
  induction fuel with
  | zero =>
      intro n attempt k last state _ hlt _ _
      exact absurd hlt (by omega)
  | succ fuel ih =>
      intro n attempt k last state hsum hlt htr hsucc
      rw [attemptLoop_succ]
      cases n with
      | zero =>
          have hs : (run k).success = true := by simpa using hsucc
          obtain ⟨o1, s1, c1, w1, heq⟩ :
              ∃ o s c w, attemptStep run now tzdb rcfg p prompt sess attempt k state
                (fun a k' l s => attemptLoop run now tzdb rcfg p prompt sess fuel a k'
                  l s) = (o, s, c, w) := ⟨_, _, _, _, rfl⟩
          have heq2 := heq
          simp [attemptStep, hs] at heq2
          obtain ⟨ho, hst, hcall, hwait⟩ := heq2
          subst ho
          subst hcall
          subst hwait
          refine ⟨s1, ?_⟩
          rw [heq]
          simp [List.range_succ]
      | succ n' =>
          have h0 := htr 0 (Nat.succ_pos n')
          have hs : (run k).success = false := by simpa using h0.1
          have hc : (run k).error_class = some .TRANSIENT_RATE_LIMIT := by
            simpa using h0.2
          have ha : attempt < rcfg.max_retries := by omega
          obtain ⟨st', hrec⟩ := ih n' (attempt + 1) (k + 1) (some (run k))
            (state.set_provider_state p
              { state.get_provider_state p with
                consecutive_errors :=
                  (state.get_provider_state p).consecutive_errors + 1 })
            (by omega) (by omega)
            (fun j hj => by
              have := htr (j + 1) (by omega)
              have harith : k + (j + 1) = k + 1 + j := by omega
              rw [harith] at this
              exact this)
            (by
              have harith : k + (n' + 1) = k + 1 + n' := by omega
              rw [harith] at hsucc
              exact hsucc)
          refine ⟨st', ?_⟩
          simp only [attemptStep, hs, Bool.false_eq_true, if_false, hc]
          simp only [show ((some ErrorClass.TRANSIENT_RATE_LIMIT =
            some ErrorClass.OTHER_ERROR) ∧
            looks_like_limit_exhaustion (run k).error_message = true) = False by simp,
            if_false, ha, if_true, hrec]
          simp only [Prod.mk.injEq]
          refine ⟨?_, trivial, ?_, ?_⟩
          · 
            have : k + 1 + n' = k + (n' + 1) := by omega
            rw [this]
          · conv_rhs => rw [List.range_succ_eq_map, List.map_cons, List.map_map]
            congr 1
            simp
            intro a h'
            congr 1
            omega
          · 
            rw [List.range_succ_eq_map, List.map_cons, List.map_map]
            congr 1
            refine List.map_congr_left (fun j _ => ?_)
            simp only [Function.comp]
            congr 2
            omega

/-! ## Unfolding helpers for the two-provider scenarios -/

lemma routeStep_first (env : RouterEnv) (up : String) (cfg : Config)
    (handoff : Option String) (p : Provider) (lastRes : Option ProviderResult)
    (counts : Provider → Nat) (state : ClaudexState)
    (cont : Option Provider → Option ProviderResult → (Provider → Nat) → ClaudexState →
      RunOutcome) :
    routeStep env up cfg handoff p none lastRes counts state cont =
      routeAttempt env cfg p up ((state.get_provider_state p).session_id) lastRes counts
        state [] cont := rfl

lemma run_with_retry_two (env : RouterEnv) (up : String) (state : ClaudexState)
    (cfg : Config) (pA pB : Provider)
    (havail : get_available_providers state cfg env.now = [pA, pB]) :
    run_with_retry env up state cfg none =
      routeStep env up cfg none pA none none (fun _ => 0) state
        (fun prev' last' counts' state' =>
          routeLoop env up cfg none [pB] prev' last' counts' state') := by
  simp only [run_with_retry, havail]
  rw [if_neg (by simp), routeLoop_cons]

lemma routeAttempt_terminal_eq (env : RouterEnv) (cfg : Config) (p : Provider)
    (prompt : String) (sess : Option String) (lastRes : Option ProviderResult)
    (counts : Provider → Nat) (state : ClaudexState) (confirms0 : List ConfirmRecord)
    (cont : Option Provider → Option ProviderResult → (Provider → Nat) → ClaudexState →
      RunOutcome) (r : ProviderResult) (st' : ClaudexState) (cs : List CallRecord)
    (ws : List ℚ)
    (hstep : attemptLoop (env.runs p) env.now env.tzdb cfg.retry p prompt sess
      (cfg.retry.max_retries + 1) 0 (counts p) lastRes state =
        (.terminal r, st', cs, ws)) :
    routeAttempt env cfg p prompt sess lastRes counts state confirms0 cont =
      ⟨some r, some p, st', cs, ws, confirms0⟩ := by
  simp only [routeAttempt, hstep]

lemma routeAttempt_moveOn_eq (env : RouterEnv) (cfg : Config) (p : Provider)
    (prompt : String) (sess : Option String) (lastRes : Option ProviderResult)
    (counts : Provider → Nat) (state : ClaudexState) (confirms0 : List ConfirmRecord)
    (cont : Option Provider → Option ProviderResult → (Provider → Nat) → ClaudexState →
      RunOutcome) (last' : Option ProviderResult) (st' : ClaudexState)
    (cs : List CallRecord) (ws : List ℚ)
    (hstep : attemptLoop (env.runs p) env.now env.tzdb cfg.retry p prompt sess
      (cfg.retry.max_retries + 1) 0 (counts p) lastRes state =
        (.moveOn last', st', cs, ws)) :
    ∃ counts2 : Provider → Nat,
      routeAttempt env cfg p prompt sess lastRes counts state confirms0 cont =
        ⟨(cont (some p) last' counts2 st').result,
         (cont (some p) last' counts2 st').provider_used,
         (cont (some p) last' counts2 st').state,
         cs ++ (cont (some p) last' counts2 st').calls,
         ws ++ (cont (some p) last' counts2 st').waits,
         confirms0 ++ (cont (some p) last' counts2 st').confirms⟩ := by
  refine ⟨fun q => if q = p then counts p + cs.length else counts q, ?_⟩
  simp only [routeAttempt, hstep]

/-! ## Counting the recorded calls -/

lemma countP_eq_zero_of_false {α : Type} (p : α → Bool) (l : List α)
    (h : ∀ c ∈ l, p c = false) : List.countP p l = 0 :=
  List.countP_eq_zero.mpr (fun a ha => by simp [h a ha])

/-- Both call-counting predicates of C5 evaluate to the sequence length on a
block of transiently failing claude calls. -/
lemma claude_calls_counts (run : Nat → ProviderResult) (prompt : String)
    (sess : Option String) :
    ∀ m : Nat, (∀ j, j < m → (run j).success = false ∧
      (run j).error_class = some ErrorClass.TRANSIENT_RATE_LIMIT) →
    List.countP (fun c => decide (c.provider = Provider.claude ∧
        c.result.success = false ∧
        c.result.error_class = some ErrorClass.TRANSIENT_RATE_LIMIT))
      ((List.range m).map (fun j => CallRecord.mk Provider.claude prompt sess (run j)))
      = m ∧
    List.countP (fun c => decide (c.provider = Provider.claude))
      ((List.range m).map (fun j => CallRecord.mk Provider.claude prompt sess (run j)))
      = m := by
  intro m
  induction m with
  | zero => intro h0; simp
  | succ m ih =>
      intro hfail
      obtain ⟨ih1, ih2⟩ := ih (fun j hj => hfail j (by omega))
      rw [List.range_succ, List.map_append]
      constructor
      · rw [List.countP_append, ih1]
        simp [List.countP_cons, (hfail m (by omega)).1, (hfail m (by omega)).2]
      · rw [List.countP_append, ih2]
        simp [List.countP_cons]

/-- C5 (corrected): with `claude` then `codex` available and `n ≤ max_retries
+ 1` consecutive `TRANSIENT_RATE_LIMIT` failures from `claude` (followed by a
success when `n ≤ max_retries`), `run_with_retry` invokes the claude adapter
with a transient failure exactly `min n (max_retries + 1)` times; the total
number of claude invocations is `n + 1` when `n ≤ max_retries` and
`max_retries + 1` otherwise; and when all `max_retries + 1` attempts fail
transiently, claude's cooldown is set with source
`"transient_retry_exhausted"` until `now + transient_cooldown_minutes`. -/
theorem C5_transient_invocations (env : RouterEnv) (up : String) (state : ClaudexState)
    (cfg : Config) (n : Nat)
    (havail : get_available_providers state cfg env.now =
      [Provider.claude, Provider.codex])
    (hn : n ≤ cfg.retry.max_retries + 1)
    (htr : ∀ j, j < n → (env.runs Provider.claude j).success = false ∧
      (env.runs Provider.claude j).error_class = some ErrorClass.TRANSIENT_RATE_LIMIT)
    (hsucc : n ≤ cfg.retry.max_retries → (env.runs Provider.claude n).success = true) :
    ((run_with_retry env up state cfg none).calls.countP
        (fun c => decide (c.provider = Provider.claude ∧ c.result.success = false ∧
          c.result.error_class = some ErrorClass.TRANSIENT_RATE_LIMIT))) =
      min n (cfg.retry.max_retries + 1) ∧
    ((run_with_retry env up state cfg none).calls.countP
        (fun c => decide (c.provider = Provider.claude))) =
      (if n ≤ cfg.retry.max_retries then n + 1 else cfg.retry.max_retries + 1) ∧
    (n = cfg.retry.max_retries + 1 →
      (((run_with_retry env up state cfg none).state).get_provider_state
          Provider.claude).cooldown_source = some "transient_retry_exhausted" ∧
      (((run_with_retry env up state cfg none).state).get_provider_state
          Provider.claude).cooldown_until =
        some (env.now + cfg.retry.transient_cooldown_minutes)) := by
  have hrw := run_with_retry_two env up state cfg Provider.claude Provider.codex havail
  rw [routeStep_first] at hrw
  by_cases hle : n ≤ cfg.retry.max_retries
  · obtain ⟨st', hstep⟩ := attemptLoop_transient_then_success (env.runs Provider.claude)
      env.now env.tzdb cfg.retry Provider.claude up
      ((state.get_provider_state Provider.claude).session_id)
      (cfg.retry.max_retries + 1) n 0 0 none state (by omega) (by omega)
      (fun j hj => by simpa using htr j hj) (by simpa using hsucc hle)
    simp only [Nat.zero_add] at hstep
    have hout := routeAttempt_terminal_eq env cfg Provider.claude up
      ((state.get_provider_state Provider.claude).session_id) none (fun _ => 0) state []
      (fun prev' last' counts' state' =>
        routeLoop env up cfg none [Provider.codex] prev' last' counts' state')
      _ st' _ _ hstep
    rw [hout] at hrw
    have hcalls : (run_with_retry env up state cfg none).calls =
        (List.range (n + 1)).map (fun j => CallRecord.mk Provider.claude up
          ((state.get_provider_state Provider.claude).session_id)
          (env.runs Provider.claude j)) := by
      rw [hrw]
    refine ⟨?_, ?_, ?_⟩
    · rw [hcalls, List.range_succ, List.map_append, List.countP_append,
        (claude_calls_counts (env.runs Provider.claude) up
          ((state.get_provider_state Provider.claude).session_id) n htr).1]
      simp [List.countP_cons, hsucc hle]
      omega
    · rw [hcalls, List.range_succ, List.map_append, List.countP_append,
        (claude_calls_counts (env.runs Provider.claude) up
          ((state.get_provider_state Provider.claude).session_id) n htr).2]
      simp [List.countP_cons, hle]
    · intro h
      omega
  · have hn2 : n = cfg.retry.max_retries + 1 := by omega
    obtain ⟨st', hstep, hsrc, huntil⟩ := attemptLoop_all_transient
      (env.runs Provider.claude) env.now env.tzdb cfg.retry Provider.claude up
      ((state.get_provider_state Provider.claude).session_id)
      (cfg.retry.max_retries + 1) 0 0 none state (by omega) (by omega)
      (fun j hj => by simpa using htr j (by omega))
    simp only [Nat.zero_add, Nat.add_sub_cancel] at hstep
    obtain ⟨counts2, hout⟩ := routeAttempt_moveOn_eq env cfg Provider.claude up
      ((state.get_provider_state Provider.claude).session_id) none (fun _ => 0) state []
      (fun prev' last' counts' state' =>
        routeLoop env up cfg none [Provider.codex] prev' last' counts' state')
      _ st' _ _ hstep
    rw [hout] at hrw
    have hfr := routeLoop_frame env up cfg none [Provider.codex] (some Provider.claude)
      (some (env.runs Provider.claude cfg.retry.max_retries)) counts2 st'
    have hcalls : (run_with_retry env up state cfg none).calls =
        ((List.range (cfg.retry.max_retries + 1)).map (fun j =>
          CallRecord.mk Provider.claude up
            ((state.get_provider_state Provider.claude).session_id)
            (env.runs Provider.claude j))) ++
        (routeLoop env up cfg none [Provider.codex] (some Provider.claude)
          (some (env.runs Provider.claude cfg.retry.max_retries)) counts2 st').calls := by
      rw [hrw]
    have hstate : (run_with_retry env up state cfg none).state =
        (routeLoop env up cfg none [Provider.codex] (some Provider.claude)
          (some (env.runs Provider.claude cfg.retry.max_retries)) counts2 st').state := by
      rw [hrw]
    have hcodexcalls : ∀ c ∈ (routeLoop env up cfg none [Provider.codex]
        (some Provider.claude) (some (env.runs Provider.claude cfg.retry.max_retries))
        counts2 st').calls, c.provider = Provider.codex := by
      intro c hc
      have hm := hfr.2 c hc
      simpa using hm
    have hz1 : List.countP (fun c => decide (c.provider = Provider.claude ∧
        c.result.success = false ∧
        c.result.error_class = some ErrorClass.TRANSIENT_RATE_LIMIT))
        ((routeLoop env up cfg none [Provider.codex] (some Provider.claude)
          (some (env.runs Provider.claude cfg.retry.max_retries))
          counts2 st').calls) = 0 :=
      countP_eq_zero_of_false _ _ (fun c hc => by simp [hcodexcalls c hc])
    have hz2 : List.countP (fun c => decide (c.provider = Provider.claude))
        ((routeLoop env up cfg none [Provider.codex] (some Provider.claude)
          (some (env.runs Provider.claude cfg.retry.max_retries))
          counts2 st').calls) = 0 :=
      countP_eq_zero_of_false _ _ (fun c hc => by simp [hcodexcalls c hc])
    refine ⟨?_, ?_, ?_⟩
    · rw [hcalls, List.countP_append,
        (claude_calls_counts (env.runs Provider.claude) up
          ((state.get_provider_state Provider.claude).session_id)
          (cfg.retry.max_retries + 1) (fun j hj => htr j (by omega))).1, hz1]
      omega
    · rw [hcalls, List.countP_append,
        (claude_calls_counts (env.runs Provider.claude) up
          ((state.get_provider_state Provider.claude).session_id)
          (cfg.retry.max_retries + 1) (fun j hj => htr j (by omega))).2, hz2,
        if_neg hle]
    · intro hmr
      refine ⟨?_, ?_⟩
      · rw [hstate, hfr.1 Provider.claude (by decide)]
        exact hsrc
      · rw [hstate, hfr.1 Provider.claude (by decide)]
        exact huntil

theorem C5_transient_invocations_witness :
    ((run_with_retry envOneTransient "go" {} {} none).calls.countP
        (fun c => decide (c.provider = Provider.claude ∧ c.result.success = false ∧
          c.result.error_class = some ErrorClass.TRANSIENT_RATE_LIMIT))) =
      min 1 (({} : Config).retry.max_retries + 1) ∧
    ((run_with_retry envOneTransient "go" {} {} none).calls.countP
        (fun c => decide (c.provider = Provider.claude))) =
      (if 1 ≤ ({} : Config).retry.max_retries then 1 + 1
       else ({} : Config).retry.max_retries + 1) := by
  have h := C5_transient_invocations envOneTransient "go" {} {} 1 (by decide) (by decide)
    (by decide) (by decide)
  exact ⟨h.1, h.2.1⟩

/-! ## The waits of a successful first call -/

lemma attemptLoop_first_success (run : Nat → ProviderResult) (now : Int)
    (tzdb : String → Option Int) (rcfg : RetryConfig) (p : Provider) (prompt : String)
    (sess : Option String) (fuel attempt k : Nat) (last : Option ProviderResult)
    (state : ClaudexState) (hs : (run k).success = true) :
    ∃ st', attemptLoop run now tzdb rcfg p prompt sess (fuel + 1) attempt k last state =
      (.terminal (run k), st', [⟨p, prompt, sess, run k⟩], []) := by
  obtain ⟨o, s, c, w, h⟩ :
      ∃ o s c w, attemptLoop run now tzdb rcfg p prompt sess (fuel + 1) attempt k last
        state = (o, s, c, w) := ⟨_, _, _, _, rfl⟩
  have h2 := h
  rw [attemptLoop_succ] at h2
  simp only [attemptStep, hs, if_true] at h2
  obtain ⟨ho, hst, hc, hw⟩ := by simpa [Prod.mk.injEq] using h2
  subst ho
  subst hc
  subst hw
  exact ⟨s, h⟩

lemma routeAttempt_success_waits (env : RouterEnv) (cfg : Config) (p : Provider)
    (prompt : String) (sess : Option String) (lastRes : Option ProviderResult)
    (counts : Provider → Nat) (state : ClaudexState) (confirms0 : List ConfirmRecord)
    (cont : Option Provider → Option ProviderResult → (Provider → Nat) → ClaudexState →
      RunOutcome)
    (hs : (env.runs p (counts p)).success = true) :
    (routeAttempt env cfg p prompt sess lastRes counts state confirms0 cont).waits =
      [] := by
  obtain ⟨st', h⟩ := attemptLoop_first_success (env.runs p) env.now env.tzdb cfg.retry
    p prompt sess cfg.retry.max_retries 0 (counts p) lastRes state hs
  rw [routeAttempt_terminal_eq env cfg p prompt sess lastRes counts state confirms0 cont
    _ st' _ _ h]

/-- A single trailing provider whose adapter always succeeds performs no
backoff wait, whatever the confirmation outcome. -/
lemma routeLoop_single_success_waits (env : RouterEnv) (up : String) (cfg : Config)
    (handoff : Option String) (p : Provider) (prev : Option Provider)
    (lastRes : Option ProviderResult) (counts : Provider → Nat) (st : ClaudexState)
    (hsucc : ∀ k, (env.runs p k).success = true) :
    (routeLoop env up cfg handoff [p] prev lastRes counts st).waits = [] := by
  rw [routeLoop_cons]
  rcases prev with _ | q
  · rw [routeStep_first]
    exact routeAttempt_success_waits env cfg p up _ lastRes counts st [] _ (hsucc _)
  · rcases lastRes with _ | lr
    · have hrs : routeStep env up cfg handoff p (some q) none counts st
          (fun prev2 last2 counts2 state2 =>
            routeLoop env up cfg handoff [] prev2 last2 counts2 state2) =
          routeAttempt env cfg p (build_provider_prompt up env.snapshot true handoff)
            none none counts st []
            (fun prev2 last2 counts2 state2 =>
              routeLoop env up cfg handoff [] prev2 last2 counts2 state2) := rfl
      rw [hrs]
      exact routeAttempt_success_waits env cfg p _ none none counts st [] _ (hsucc _)
    · rcases hcs : env.confirmSwitch with _ | f
      · have hrs : routeStep env up cfg handoff p (some q) (some lr) counts st
            (fun prev2 last2 counts2 state2 =>
              routeLoop env up cfg handoff [] prev2 last2 counts2 state2) =
            routeAttempt env cfg p (build_provider_prompt up env.snapshot true handoff)
              none (some lr) counts st []
              (fun prev2 last2 counts2 state2 =>
                routeLoop env up cfg handoff [] prev2 last2 counts2 state2) := by
          simp [routeStep, hcs]
        rw [hrs]
        exact routeAttempt_success_waits env cfg p _ none (some lr) counts st [] _
          (hsucc _)
      · cases hf : f q p lr
        · simp [routeStep, hcs, hf]
        · have hrs : routeStep env up cfg handoff p (some q) (some lr) counts st
              (fun prev2 last2 counts2 state2 =>
                routeLoop env up cfg handoff [] prev2 last2 counts2 state2) =
              routeAttempt env cfg p (build_provider_prompt up env.snapshot true handoff)
                none (some lr) counts st [⟨q, p, lr, true⟩]
                (fun prev2 last2 counts2 state2 =>
                  routeLoop env up cfg handoff [] prev2 last2 counts2 state2) := by
            simp [routeStep, hcs, hf]
          rw [hrs]
          exact routeAttempt_success_waits env cfg p _ none (some lr) counts st _ _
            (hsucc _)

/-- C8 (corrected): with `claude` then `codex` available, all of claude's
`max_retries + 1` attempts failing transiently and codex succeeding, the
recorded backoff waits are exactly `min (backoff_base ^ k) backoff_max` for
attempts `k = 0, …, max_retries - 1`; they lie within `[0, backoff_max]`
whenever both knobs are nonnegative; with the default base 2 the attempt-0
wait is 1; and with `backoff_base = 0` every wait from attempt 1 on is 0 but
the attempt-0 wait is `min 1 backoff_max`, since `0 ^ 0 = 1`. -/
theorem C8_backoff_wait (env : RouterEnv) (up : String) (state : ClaudexState)
    (cfg : Config)
    (havail : get_available_providers state cfg env.now =
      [Provider.claude, Provider.codex])
    (htr : ∀ j, j < cfg.retry.max_retries + 1 →
      (env.runs Provider.claude j).success = false ∧
      (env.runs Provider.claude j).error_class = some ErrorClass.TRANSIENT_RATE_LIMIT)
    (hcodex : ∀ k, (env.runs Provider.codex k).success = true) :
    (run_with_retry env up state cfg none).waits =
      (List.range cfg.retry.max_retries).map
        (fun j => min (cfg.retry.backoff_base ^ j) cfg.retry.backoff_max) ∧
    (0 ≤ cfg.retry.backoff_base → 0 ≤ cfg.retry.backoff_max →
      ∀ w ∈ (run_with_retry env up state cfg none).waits,
        0 ≤ w ∧ w ≤ cfg.retry.backoff_max) ∧
    (cfg.retry.backoff_base = 2 → 1 ≤ cfg.retry.backoff_max →
      cfg.retry.max_retries ≠ 0 →
      (run_with_retry env up state cfg none).waits.head? = some 1) ∧
    (cfg.retry.backoff_base = 0 → 0 ≤ cfg.retry.backoff_max →
      ∀ w ∈ ((run_with_retry env up state cfg none).waits).drop 1, w = 0) ∧
    (cfg.retry.backoff_base = 0 → cfg.retry.max_retries ≠ 0 →
      (run_with_retry env up state cfg none).waits.head? =
        some (min 1 cfg.retry.backoff_max)) := by
  have hrw := run_with_retry_two env up state cfg Provider.claude Provider.codex havail
  rw [routeStep_first] at hrw
  obtain ⟨st', hstep, hsrc, huntil⟩ := attemptLoop_all_transient
    (env.runs Provider.claude) env.now env.tzdb cfg.retry Provider.claude up
    ((state.get_provider_state Provider.claude).session_id)
    (cfg.retry.max_retries + 1) 0 0 none state (by omega) (by omega)
    (fun j hj => by simpa using htr j hj)
  simp only [Nat.zero_add, Nat.add_sub_cancel] at hstep
  obtain ⟨counts2, hout⟩ := routeAttempt_moveOn_eq env cfg Provider.claude up
    ((state.get_provider_state Provider.claude).session_id) none (fun _ => 0) state []
    (fun prev' last' counts' state' =>
      routeLoop env up cfg none [Provider.codex] prev' last' counts' state')
    _ st' _ _ hstep
  rw [hout] at hrw
  have htail : (routeLoop env up cfg none [Provider.codex] (some Provider.claude)
      (some (env.runs Provider.claude cfg.retry.max_retries)) counts2 st').waits = [] :=
    routeLoop_single_success_waits env up cfg none Provider.codex _ _ counts2 st' hcodex
  have hws : (run_with_retry env up state cfg none).waits =
      (List.range cfg.retry.max_retries).map
        (fun j => min (cfg.retry.backoff_base ^ j) cfg.retry.backoff_max) := by
    rw [hrw]
    show ((List.range cfg.retry.max_retries).map
        (fun j => min (cfg.retry.backoff_base ^ j) cfg.retry.backoff_max)) ++
      (routeLoop env up cfg none [Provider.codex] (some Provider.claude)
        (some (env.runs Provider.claude cfg.retry.max_retries)) counts2 st').waits =
      (List.range cfg.retry.max_retries).map
        (fun j => min (cfg.retry.backoff_base ^ j) cfg.retry.backoff_max)
    rw [htail, List.append_nil]
  refine ⟨hws, ?_, ?_, ?_, ?_⟩
  · intro hb hm w hw
    rw [hws] at hw
    simp only [List.mem_map, List.mem_range] at hw
    obtain ⟨a, ha, rfl⟩ := hw
    exact ⟨le_min (pow_nonneg hb a) hm, min_le_right _ _⟩
  · intro hb2 hm1 hmr
    rw [hws]
    obtain ⟨m, hm2⟩ := Nat.exists_eq_succ_of_ne_zero hmr
    rw [hm2, List.range_succ_eq_map, List.map_cons]
    simp [hb2, min_eq_left hm1]
  · intro hb0 hm w hw
    rw [hws] at hw
    rcases Nat.eq_zero_or_pos cfg.retry.max_retries with h0 | hpos
    · rw [h0] at hw
      simp at hw
    · obtain ⟨m, hm2⟩ := Nat.exists_eq_succ_of_ne_zero
        (show cfg.retry.max_retries ≠ 0 by omega)
      rw [hm2, List.range_succ_eq_map, List.map_cons] at hw
      simp only [List.drop_succ_cons, List.drop_zero, List.map_map, List.mem_map,
        List.mem_range] at hw
      obtain ⟨a, ha, rfl⟩ := hw
      simp only [Function.comp_apply]
      rw [hb0, zero_pow (Nat.succ_ne_zero a)]
      exact min_eq_left hm
  · intro hb0 hmr
    rw [hws]
    obtain ⟨m, hm2⟩ := Nat.exists_eq_succ_of_ne_zero hmr
    rw [hm2, List.range_succ_eq_map, List.map_cons]
    simp [hb0]

theorem C8_backoff_wait_witness :
    (run_with_retry envAllTransient "go" {} cfgZeroBase none).waits =
      (List.range cfgZeroBase.retry.max_retries).map
        (fun j => min (cfgZeroBase.retry.backoff_base ^ j)
          cfgZeroBase.retry.backoff_max) ∧
    (run_with_retry envAllTransient "go" {} cfgZeroBase none).waits.head? =
      some (min 1 cfgZeroBase.retry.backoff_max) := by
  have h := C8_backoff_wait envAllTransient "go" {} cfgZeroBase (by decide) (by decide)
    (fun k => rfl)
  exact ⟨h.1, h.2.2.2.2 (by decide) (by decide)⟩

/-! ## Handoff round trip (C9) -/

lemma enforce_line_limit_of_le (text : String) (max_lines : Nat)
    (h : (pySplitLines text).length ≤ max_lines) :
    enforce_line_limit text max_lines = text := by
  simp [enforce_line_limit, h]

/-- The assembled handoff document contains each carried-forward block (the
previous section body, or its placeholder when that body is empty). -/
lemma handoff_doc_contains (up atext provider now_str : String)
    (prev_h : Option String) :
    pyContains (handoff_doc up atext provider now_str prev_h)
      (pyOrStr (extract_section (prev_h.getD "") "Current Goal")
        handoff_placeholder) = true ∧
    pyContains (handoff_doc up atext provider now_str prev_h)
      (pyOrStr (extract_section (prev_h.getD "") "Current Plan")
        handoff_placeholder) = true ∧
    pyContains (handoff_doc up atext provider now_str prev_h)
      (pyOrStr (extract_section (prev_h.getD "") "Open Questions / Blockers")
        blockers_placeholder) = true := by
  refine ⟨?_, ?_, ?_⟩
  · simp only [pyContains, handoff_doc, string_data_append, List.append_assoc]
    apply listIsSubstring_append_left
    apply listIsSubstring_append_left
    apply listIsSubstring_append_left
    apply listIsSubstring_append_left
    apply listIsSubstring_append_left
    exact listIsSubstring_of_prefix (listIsPrefix_append _ _)
  · simp only [pyContains, handoff_doc, string_data_append, List.append_assoc]
    apply listIsSubstring_append_left
    apply listIsSubstring_append_left
    apply listIsSubstring_append_left
    apply listIsSubstring_append_left
    apply listIsSubstring_append_left
    apply listIsSubstring_append_left
    apply listIsSubstring_append_left
    exact listIsSubstring_of_prefix (listIsPrefix_append _ _)
  · simp only [pyContains, handoff_doc, string_data_append, List.append_assoc]
    apply listIsSubstring_append_left
    apply listIsSubstring_append_left
    apply listIsSubstring_append_left
    apply listIsSubstring_append_left
    apply listIsSubstring_append_left
    apply listIsSubstring_append_left
    apply listIsSubstring_append_left
    apply listIsSubstring_append_left
    apply listIsSubstring_append_left
    apply listIsSubstring_append_left
    apply listIsSubstring_append_left
    apply listIsSubstring_append_left
    apply listIsSubstring_append_left
    apply listIsSubstring_append_left
    apply listIsSubstring_append_left
    exact listIsSubstring_of_prefix (listIsPrefix_append _ _)

/-- C9 (corrected): for every previous handoff document, as long as the
assembled next document stays within `max_handoff_lines` (so the line-cap
middle-truncation of `_enforce_line_limit` does not fire), the handoff
produced by `update_handoff` contains each of the three carried sections of
the previous document verbatim when its extracted body is non-empty, and the
corresponding placeholder when it is empty (a section absent from the
previous document extracts to the empty body). -/
theorem C9_handoff_round_trip (up atext provider now_str : String) (cfg : Config)
    (prev : String)
    (hfit : (pySplitLines (handoff_doc up atext provider now_str (some prev))).length ≤
      cfg.limits.max_handoff_lines) :
    (extract_section prev "Current Goal" ≠ "" →
      pyContains (update_handoff up atext provider cfg (some prev) now_str)
        (extract_section prev "Current Goal") = true) ∧
    (extract_section prev "Current Goal" = "" →
      pyContains (update_handoff up atext provider cfg (some prev) now_str)
        handoff_placeholder = true) ∧
    (extract_section prev "Current Plan" ≠ "" →
      pyContains (update_handoff up atext provider cfg (some prev) now_str)
        (extract_section prev "Current Plan") = true) ∧
    (extract_section prev "Current Plan" = "" →
      pyContains (update_handoff up atext provider cfg (some prev) now_str)
        handoff_placeholder = true) ∧
    (extract_section prev "Open Questions / Blockers" ≠ "" →
      pyContains (update_handoff up atext provider cfg (some prev) now_str)
        (extract_section prev "Open Questions / Blockers") = true) ∧
    (extract_section prev "Open Questions / Blockers" = "" →
      pyContains (update_handoff up atext provider cfg (some prev) now_str)
        blockers_placeholder = true) := by
  have hupd : update_handoff up atext provider cfg (some prev) now_str =
      handoff_doc up atext provider now_str (some prev) := by
    simp only [update_handoff]
    exact enforce_line_limit_of_le _ _ hfit
  obtain ⟨h1, h2, h3⟩ := handoff_doc_contains up atext provider now_str (some prev)
  simp only [Option.getD_some] at h1 h2 h3
  rw [hupd]
  refine ⟨fun hg => ?_, fun hg => ?_, fun hp => ?_, fun hp => ?_, fun hb => ?_,
    fun hb => ?_⟩
  · simpa [pyOrStr, hg] using h1
  · simpa [pyOrStr, hg] using h1
  · simpa [pyOrStr, hp] using h2
  · simpa [pyOrStr, hp] using h2
  · simpa [pyOrStr, hb] using h3
  · simpa [pyOrStr, hb] using h3

/-- A previous handoff carrying all three sections, small enough to stay
within the default line cap. -/
def prevRound : String :=
  "# AI Switch Handoff\n\n## Current Goal\n\nShip v2\n\n## Current Plan\n\nDo the thing\n\n## Open Questions / Blockers\n\nNone so far\n"

theorem C9_handoff_round_trip_witness :
    pyContains (update_handoff "u" "a" "claude" {} (some prevRound) "2026-02-27")
      (extract_section prevRound "Current Goal") = true ∧
    pyContains (update_handoff "u" "a" "claude" {} (some prevRound) "2026-02-27")
      (extract_section prevRound "Current Plan") = true ∧
    pyContains (update_handoff "u" "a" "claude" {} (some prevRound) "2026-02-27")
      (extract_section prevRound "Open Questions / Blockers") = true := by
  have h := C9_handoff_round_trip "u" "a" "claude" "2026-02-27" {} prevRound (by decide)
  exact ⟨h.1 (by decide), h.2.2.1 (by decide), h.2.2.2.2.1 (by decide)⟩

/-- A previous handoff whose plan body is long, and a config with a small
`max_handoff_lines`. -/
def prevC9 : String :=
  "# AI Switch Handoff\n\n## Current Goal\n\ngoalbody\n\n## Current Plan\n\nplanline1\nplanline2\nplanline3\nplanline4\nplanline5\nplanline6\n\n## Open Questions / Blockers\n\nblockerbody\n"

/-- Config of the C9 counterexample: the line cap is 10. -/
def cfgC9 : Config := { limits := { max_handoff_lines := 10 } }

/-- C9 counterexample: with `max_handoff_lines = 10`, the previous document's
`Current Plan` section body (present and non-empty) is *not* contained in the
next handoff: `_enforce_line_limit` replaces the middle of the assembled
document — including the carried-forward plan — with an omission marker. -/
theorem C9_counterexample :
    extract_section prevC9 "Current Plan" =
      "planline1\nplanline2\nplanline3\nplanline4\nplanline5\nplanline6" ∧
    pyContains (update_handoff "u" "a" "claude" cfgC9 (some prevC9) "2026-02-27")
      (extract_section prevC9 "Current Plan") = false := by
  decide


end Claudex
